import Mathlib

/-!
# Recipe directory client: fetch helpers and query cache

A shallow embedding of `src/utils/supabaseHelpers.js` and `src/hooks/useOptimizedFetch.js`.

* JavaScript values are the inductive type `JSVal` (primitives and plain objects).
* A promise is described by when it settles and how (`JSPromise`); time is counted in
  milliseconds as a natural number.  `Promise.race` against a timer is decided by comparing
  the settle time with the timer delay.
* An `async` function is a pure function returning what the promise it returns settles to
  (`Except JSVal JSVal`: `.ok v` is resolution with `v`, `.error r` is rejection with `r`)
  together with a trace of the effects it performed (operation invocations, backoff waits).
* `console.error` calls have no influence on any result and are left out.
-/

namespace Recipe

/-! ## JavaScript values -/

/-- JavaScript values: the primitives and plain objects, an object being the ordered list of
its own properties (the first binding of a name is the one that is read).  Numbers are the
integers; functions and arrays are not values of this model. -/
inductive JSVal where
  | undefined : JSVal
  | null : JSVal
  | bool (b : Bool) : JSVal
  | num (n : Int) : JSVal
  | str (s : String) : JSVal
  | obj (fields : List (String × JSVal)) : JSVal

instance : Inhabited JSVal := ⟨JSVal.undefined⟩

/-- The object built by `new Error(message)` (also used for the engine's `TypeError`s): the
only property the helpers ever read from it is `message`. -/
def mkError (message : String) : JSVal :=
  JSVal.obj [("message", JSVal.str message)]

/-- The object literal `{ data: d, error: e }`. -/
def mkResult (d e : JSVal) : JSVal :=
  JSVal.obj [("data", d), ("error", e)]

/-- Lookup of an own property in a property list. -/
def lookupField (p : String) : List (String × JSVal) → Option JSVal
  | [] => none
  | (k, v) :: rest => if k = p then some v else lookupField p rest

/-- Property read `v.p`.  Reading a property of `undefined` or `null` throws a `TypeError`;
a property an object does not have, and any property of a primitive, reads as `undefined`
(the helpers read only `data`, `error`, `message` and `code`, none of which is inherited). -/
def getProp (v : JSVal) (p : String) : Except JSVal JSVal :=
  match v with
  | JSVal.undefined =>
      Except.error (mkError ("Cannot read properties of undefined (reading \x27" ++ p ++ "\x27)"))
  | JSVal.null =>
      Except.error (mkError ("Cannot read properties of null (reading \x27" ++ p ++ "\x27)"))
  | JSVal.obj fields => Except.ok ((lookupField p fields).getD JSVal.undefined)
  | _ => Except.ok JSVal.undefined

/-- The binding of property `p` in a destructuring `const { p, ... } = await ...` of `v`:
destructuring `undefined` or `null` throws a `TypeError`, otherwise the property is read as
by `v.p`. -/
def destructureProp (v : JSVal) (p : String) : Except JSVal JSVal :=
  match v with
  | JSVal.undefined =>
      Except.error (mkError ("Cannot destructure property \x27" ++ p
        ++ "\x27 of \x27(intermediate value)\x27 as it is undefined."))
  | JSVal.null =>
      Except.error (mkError ("Cannot destructure property \x27" ++ p
        ++ "\x27 of \x27(intermediate value)\x27 as it is null."))
  | JSVal.obj fields => Except.ok ((lookupField p fields).getD JSVal.undefined)
  | _ => Except.ok JSVal.undefined

/-- JavaScript truthiness (`ToBoolean`). -/
def truthy : JSVal → Bool
  | JSVal.undefined => false
  | JSVal.null => false
  | JSVal.bool b => b
  | JSVal.num n => n != 0
  | JSVal.str s => s != ""
  | JSVal.obj _ => true

/-- Strict equality `v === 'literal'` against a string literal. -/
def strictEqStr (v : JSVal) (literal : String) : Bool :=
  match v with
  | JSVal.str s => s == literal
  | _ => false

/-- Whether the character list starts with the given characters. -/
def startsWithChars : List Char → List Char → Bool
  | _, [] => true
  | [], _ :: _ => false
  | c :: cs, d :: ds => c == d && startsWithChars cs ds

/-- Whether the needle occurs somewhere in the character list. -/
def includesChars : List Char → List Char → Bool
  | [], needle => needle.isEmpty
  | c :: cs, needle => startsWithChars (c :: cs) needle || includesChars cs needle

/-- The method `String.prototype.includes`. -/
def includes (s needle : String) : Bool :=
  includesChars s.data needle.data

/-- The optional call `receiver?.includes(needle)`: `undefined` when the receiver is
`undefined` or `null`, the substring test on a string, and a `TypeError` on every other
value of the model, none of which has a callable `includes`. -/
def optionalIncludes (receiver : JSVal) (needle : String) : Except JSVal JSVal :=
  match receiver with
  | JSVal.undefined => Except.ok JSVal.undefined
  | JSVal.null => Except.ok JSVal.undefined
  | JSVal.str s => Except.ok (JSVal.bool (includes s needle))
  | _ => Except.error (mkError "error.message?.includes is not a function")

/-- The expression `a || b`. -/
def jsOr (a b : JSVal) : JSVal :=
  if truthy a then a else b

/-- Whether a value is `undefined` or `null`. -/
def isNullish : JSVal → Bool
  | JSVal.undefined => true
  | JSVal.null => true
  | _ => false

/-- The expression `a ?? b`. -/
def nullishOr (a b : JSVal) : JSVal :=
  if isNullish a then b else a

/-- The optional read `v?.p`: `undefined` when `v` is `undefined` or `null`, the property
otherwise (a read that cannot throw). -/
def optionalProp (v : JSVal) (p : String) : JSVal :=
  match v with
  | JSVal.obj fields => (lookupField p fields).getD JSVal.undefined
  | _ => JSVal.undefined

/-! ## Promises and the deadline race -/

/-- How a promise settles: fulfilled with a value of type `α`, or rejected with any
JavaScript value as reason. -/
inductive Settlement (α : Type) where
  | fulfilled (value : α) : Settlement α
  | rejected (reason : JSVal) : Settlement α

/-- A promise, seen from the moment it is handed over: `none` never settles, `some (t, s)`
settles as `s` after `t` milliseconds.  A plain value passed where a promise is expected is
the promise `some (0, fulfilled v)`. -/
abbrev JSPromise (α : Type) := Option (Nat × Settlement α)

/-- Source: `withTimeout` (supabaseHelpers.js 3-9).  `Promise.race([promise, timeoutPromise])`
where the timer rejects with `new Error(errorMessage)` after `timeoutMs`: the promise wins
when it settles no later than the timer fires (it is listed first and was started first), the
timer wins otherwise.  The race always settles; the result is its settle time and outcome. -/
def withTimeout {α : Type} (promise : JSPromise α) (timeoutMs : Nat := 5000)
    (errorMessage : String := "Request timeout") : Nat × Settlement α :=
  match promise with
  | none => (timeoutMs, Settlement.rejected (mkError errorMessage))
  | some (t, s) =>
      if t ≤ timeoutMs then (t, s) else (timeoutMs, Settlement.rejected (mkError errorMessage))

/-- The race `Promise.race([call, timeoutPromise])` where the timer was created before the
call was made (useOptimizedFetch.js 34-39, AuthContext.jsx 25-31 and 75-85): the timer, being
the older one, fires first when both are due at the same millisecond, so the call wins only
when it settles strictly before `timeoutMs`. -/
def raceTimerFirst {α : Type} (promise : JSPromise α) (timeoutMs : Nat)
    (errorMessage : String) : Nat × Settlement α :=
  match promise with
  | none => (timeoutMs, Settlement.rejected (mkError errorMessage))
  | some (t, s) =>
      if t < timeoutMs then (t, s) else (timeoutMs, Settlement.rejected (mkError errorMessage))

/-! ## Error mapping -/

/-- The default of the parameter `fallbackData = null` (supabaseHelpers.js 11): an argument
that is `undefined`, like an omitted one, is replaced by `null`. -/
def defaultFallback (argument : JSVal) : JSVal :=
  match argument with
  | JSVal.undefined => JSVal.null
  | v => v

/-- Source: `handleSupabaseError` (supabaseHelpers.js 11-24).  `fallbackData` is the value of
the parameter once its default has been applied: a call `handleSupabaseError(e, f)` runs this
with `defaultFallback f`.  The only call in the sources, in `optimizedQuery`, passes the
`fallbackData` of the destructured options, which has been defaulted the same way. -/
def handleSupabaseError (error : JSVal) (fallbackData : JSVal := JSVal.null) :
    Except JSVal JSVal :=
  match getProp error "message" with
  | Except.error e => Except.error e
  | Except.ok message =>
    match optionalIncludes message "timeout" with
    | Except.error e => Except.error e
    | Except.ok isTimeout =>
      if truthy isTimeout then
        Except.ok (mkResult fallbackData (JSVal.str "Request timed out. Please try again."))
      else
        match getProp error "code" with
        | Except.error e => Except.error e
        | Except.ok code =>
          if strictEqStr code "PGRST116" then
            Except.ok (mkResult fallbackData (JSVal.str "No data found."))
          else
            match getProp error "message" with
            | Except.error e => Except.error e
            | Except.ok message2 =>
              Except.ok (mkResult fallbackData (jsOr message2 (JSVal.str "Something went wrong.")))

/-! ## The retrying query helper -/

/-- What one call `queryFn()` does: it throws synchronously, or it returns a promise. -/
inductive Invocation where
  | throws (reason : JSVal) : Invocation
  | returns (promise : JSPromise JSVal) : Invocation

/-- The options object of `optimizedQuery` after destructuring with its defaults. -/
structure QueryOptions where
  timeout : Nat := 5000
  fallbackData : JSVal := JSVal.null
  retries : Int := 1

/-- What a call of `optimizedQuery` amounts to: what the returned promise settles to, how
many times the operation was invoked, and the backoff waits (in milliseconds) in order. -/
structure QueryRun where
  outcome : Except JSVal JSVal
  calls : Nat
  waits : List Nat

/-- The body of the `try` block (supabaseHelpers.js 35-36):
`const result = await withTimeout(queryFn(), timeout); return { data: result.data, error: result.error }`.
`.ok v` is the value returned, `.error e` is what reaches the `catch` block. -/
def tryAttempt (invocation : Invocation) (timeout : Nat) : Except JSVal JSVal :=
  match invocation with
  | Invocation.throws reason => Except.error reason
  | Invocation.returns promise =>
    match (withTimeout promise timeout).2 with
    | Settlement.rejected reason => Except.error reason
    | Settlement.fulfilled result =>
      match getProp result "data" with
      | Except.error e => Except.error e
      | Except.ok d =>
        match getProp result "error" with
        | Except.error e => Except.error e
        | Except.ok er => Except.ok (mkResult d er)

/-- The `for` loop of `optimizedQuery` (supabaseHelpers.js 33-44), from the iteration with
counter `attempt` on.  `queryFn k` is what the invocation number `k` (from 0) of the operation
does; `calls` counts the invocations made so far.  The first argument bounds the number of
iterations; `optimizedQuery` passes the exact number the loop condition allows, so reaching 0
is the loop condition turning false, after which the function returns `undefined`. -/
def attemptLoop (queryFn : Nat → Invocation) (timeout : Nat) (fallbackData : JSVal)
    (retries : Int) : Nat → Nat → Nat → List Nat → QueryRun
  | 0, _, calls, waits => ⟨Except.ok JSVal.undefined, calls, waits⟩
  | fuel + 1, attempt, calls, waits =>
    if (attempt : Int) ≤ retries then
      match tryAttempt (queryFn calls) timeout with
      | Except.ok r => ⟨Except.ok r, calls + 1, waits⟩
      | Except.error error =>
        if (attempt : Int) = retries then
          ⟨handleSupabaseError error fallbackData, calls + 1, waits⟩
        else
          attemptLoop queryFn timeout fallbackData retries fuel (attempt + 1) (calls + 1)
            (waits ++ [1000])
    else ⟨Except.ok JSVal.undefined, calls, waits⟩

/-- Source: `optimizedQuery` (supabaseHelpers.js 26-45). -/
def optimizedQuery (queryFn : Nat → Invocation) (options : QueryOptions := {}) : QueryRun :=
  attemptLoop queryFn options.timeout options.fallbackData options.retries
    (options.retries + 1).toNat 0 0 []

/-! ## Batch settlement -/

/-- The settle times and outcomes of all promises of a list, when every one settles. -/
def collectSettled {α : Type} : List (JSPromise α) → Option (List (Nat × Settlement α))
  | [] => some []
  | none :: _ => none
  | some x :: rest =>
    match collectSettled rest with
    | none => none
    | some xs => some (x :: xs)

/-- The promise `Promise.allSettled(queries)`: it never rejects, and fulfils with the outcomes
in input order once the last input has settled. -/
def allSettled (queries : List (JSPromise JSVal)) : JSPromise (List (Settlement JSVal)) :=
  match collectSettled queries with
  | none => none
  | some settled =>
    some ((settled.map Prod.fst).foldr max 0, Settlement.fulfilled (settled.map Prod.snd))

/-- The callback of `results.map` (supabaseHelpers.js 56-63) on one settled result. -/
def settledToPayload (result : Settlement JSVal) : Except JSVal JSVal :=
  match result with
  | Settlement.fulfilled value => Except.ok value
  | Settlement.rejected reason =>
    match getProp reason "message" with
    | Except.error e => Except.error e
    | Except.ok message => Except.ok (mkResult JSVal.null message)

/-- The call `results.map(...)`: the callback runs on the results in order and the first
exception it throws ends the call. -/
def mapPayloads : List (Settlement JSVal) → Except JSVal (List JSVal)
  | [] => Except.ok []
  | result :: rest =>
    match settledToPayload result with
    | Except.error e => Except.error e
    | Except.ok payload =>
      match mapPayloads rest with
      | Except.error e => Except.error e
      | Except.ok payloads => Except.ok (payload :: payloads)

/-- The `catch` block of `batchQueries` (supabaseHelpers.js 64-67):
`queries.map(() => ({ data: null, error: error.message }))`; the callback is the same at
every position and is not run at all on an empty array. -/
def batchCatch {α : Type} (queries : List α) (error : JSVal) : Except JSVal (List JSVal) :=
  match queries with
  | [] => Except.ok []
  | _ :: _ =>
    match getProp error "message" with
    | Except.error e => Except.error e
    | Except.ok message => Except.ok (queries.map (fun _ => mkResult JSVal.null message))

/-- Source: `batchQueries` (supabaseHelpers.js 48-68).  The result is what the returned
promise settles to: `.ok` with the result array, or `.error` with a rejection reason. -/
def batchQueries (queries : List (JSPromise JSVal)) (timeout : Nat := 8000) :
    Except JSVal (List JSVal) :=
  match (withTimeout (allSettled queries) timeout "Batch queries timeout").2 with
  | Settlement.rejected error => batchCatch queries error
  | Settlement.fulfilled results =>
    match mapPayloads results with
    | Except.ok payloads => Except.ok payloads
    | Except.error error => batchCatch queries error

/-! ## The query cache and the data-fetch lifecycle -/

/-- The object `{ data, timestamp }` stored in the query cache (useOptimizedFetch.js 42-45). -/
structure CacheEntry where
  data : JSVal
  timestamp : Int

/-- Source: `queryCache` (useOptimizedFetch.js 4), a `Map` from keys to entries, as the list
of its entries in insertion order; `new Map()` is the empty list. -/
abbrev QueryCache := List (String × CacheEntry)

/-- The call `queryCache.get(key)`; `none` is `undefined`. -/
def cacheGet : QueryCache → String → Option CacheEntry
  | [], _ => none
  | (k, e) :: rest, key => if k = key then some e else cacheGet rest key

/-- The call `queryCache.set(key, entry)`: the value of an existing key is replaced where it
stands, a new key is appended. -/
def cacheSet : QueryCache → String → CacheEntry → QueryCache
  | [], key, entry => [(key, entry)]
  | (k, e) :: rest, key, entry =>
    if k = key then (key, entry) :: rest else (k, e) :: cacheSet rest key entry

/-- The call `queryCache.delete(key)`. -/
def cacheDelete : QueryCache → String → QueryCache
  | [], _ => []
  | (k, e) :: rest, key => if k = key then rest else (k, e) :: cacheDelete rest key

/-- Source: `clearCache` (useOptimizedFetch.js 75-77). -/
def clearCache (_cache : QueryCache) : QueryCache := []

/-- The store of a result (useOptimizedFetch.js 42-45):
`queryCache.set(queryKey, { data: result, timestamp: Date.now() })`, `now` being the reading of
`Date.now()`. -/
def cacheStore (cache : QueryCache) (queryKey : String) (result : JSVal) (now : Int) :
    QueryCache :=
  cacheSet cache queryKey { data := result, timestamp := now }

/-- Source: `CACHE_DURATION` (useOptimizedFetch.js 5). -/
def CACHE_DURATION : Int := 5 * 60 * 1000

/-- The three state cells of the hook (useOptimizedFetch.js 8-10). -/
structure HookState where
  data : JSVal
  loading : Bool
  error : JSVal

/-- The initial values of the state cells. -/
def initialHookState : HookState :=
  { data := JSVal.null, loading := true, error := JSVal.null }

/-- What one run of `fetchData` leaves behind: the state cells, the cache, and how many
times the operation was invoked. -/
structure FetchRun where
  state : HookState
  cache : QueryCache
  calls : Nat

/-- The race of `fetchData` (useOptimizedFetch.js 34-39):
`await Promise.race([queryFn(), timeoutPromise])`, the timer, created before `queryFn()` is
called, rejecting with `new Error('Request timeout')`.  An operation that throws synchronously
reaches the `catch` block like a rejection. -/
def raceOperation (queryFn : Invocation) (timeout : Nat) : Settlement JSVal :=
  match queryFn with
  | Invocation.throws reason => Settlement.rejected reason
  | Invocation.returns promise => (raceTimerFirst promise timeout "Request timeout").2

/-- The request part of `fetchData` (useOptimizedFetch.js 33-59): the race of `queryFn()`
against the timer, the store of the result, the `catch` block and the `finally` block.
`nowStore` is the reading of `Date.now()` at the store. -/
def fetchRequest (queryKey : String) (queryFn : Invocation) (timeout : Nat) (nowStore : Int)
    (cache : QueryCache) (state : HookState) : FetchRun :=
  match raceOperation queryFn timeout with
  | Settlement.fulfilled result =>
    { state := { state with data := result, loading := false },
      cache := cacheStore cache queryKey result nowStore,
      calls := 1 }
  | Settlement.rejected err =>
    match cacheGet cache queryKey with
    | some cached =>
      { state := { data := cached.data, loading := false, error := err },
        cache := cache, calls := 1 }
    | none =>
      { state := { state with loading := false, error := err }, cache := cache, calls := 1 }

/-- Source: `fetchData` (useOptimizedFetch.js 18-60), one run from the given state cells and
cache.  `nowCheck` and `nowStore` are the readings of `Date.now()` at the freshness test and
at the store. -/
def fetchData (queryKey : String) (queryFn : Invocation) (enabled : Bool) (timeout : Nat)
    (cacheTime : Int) (nowCheck nowStore : Int) (cache : QueryCache) (state : HookState) :
    FetchRun :=
  if !enabled then { state := state, cache := cache, calls := 0 }
  else
    let started : HookState := { state with loading := true, error := JSVal.null }
    match cacheGet cache queryKey with
    | some cached =>
      if nowCheck - cached.timestamp < cacheTime then
        { state := { started with data := cached.data, loading := false },
          cache := cache, calls := 0 }
      else fetchRequest queryKey queryFn timeout nowStore cache started
    | none => fetchRequest queryKey queryFn timeout nowStore cache started

/-- The synchronous part of `fetchData`, up to the `await` (useOptimizedFetch.js 19-31): the
state cells it leaves, and whether a request is now to be issued. -/
def fetchBegin (queryKey : String) (enabled : Bool) (cacheTime nowCheck : Int)
    (cache : QueryCache) (state : HookState) : HookState × Bool :=
  if !enabled then (state, false)
  else
    let started : HookState := { state with loading := true, error := JSVal.null }
    match cacheGet cache queryKey with
    | some cached =>
      if nowCheck - cached.timestamp < cacheTime then
        ({ started with data := cached.data, loading := false }, false)
      else (started, true)
    | none => (started, true)

/-- Source: `refetch` (useOptimizedFetch.js 66-69): `queryCache.delete(queryKey); fetchData()`. -/
def refetch (queryKey : String) (queryFn : Invocation) (enabled : Bool) (timeout : Nat)
    (cacheTime : Int) (nowCheck nowStore : Int) (cache : QueryCache) (state : HookState) :
    FetchRun :=
  fetchData queryKey queryFn enabled timeout cacheTime nowCheck nowStore
    (cacheDelete cache queryKey) state

/-- The time, counted from the call of `fetchData`, at which its race settles. -/
def raceSettleTime (queryFn : Invocation) (timeout : Nat) : Nat :=
  match queryFn with
  | Invocation.throws _ => 0
  | Invocation.returns promise => (raceTimerFirst promise timeout "Request timeout").1

/-- One enabled hook instance whose key changes from `k1` to `k2` at `changeAt` milliseconds
after mount (useOptimizedFetch.js 18-64).  The effect runs `fetchData` for `k1` at mount and,
`fetchData` being rebuilt for the new key, again for `k2` at the change; both runs write the
same three state cells through the same setters, and nothing cancels the first run.  The
continuation of each run (`fetchRequest`) is applied, when its race settles, to the state
cells and cache as they are then; `clock0` is the reading of `Date.now()` at mount.  The
result is the state cells and cache once everything has settled. -/
def keyChange (k1 k2 : String) (q1 q2 : Invocation) (timeout : Nat) (cacheTime clock0 : Int)
    (changeAt : Nat) (cache : QueryCache) (state : HookState) : HookState × QueryCache :=
  let t1 := raceSettleTime q1 timeout
  let t2 := changeAt + raceSettleTime q2 timeout
  let b1 := fetchBegin k1 true cacheTime clock0 cache state
  if b1.2 = false then
    let r2 := fetchData k2 q2 true timeout cacheTime (clock0 + changeAt) (clock0 + t2) cache b1.1
    (r2.state, r2.cache)
  else if t1 < changeAt then
    let r1 := fetchRequest k1 q1 timeout (clock0 + t1) cache b1.1
    let r2 := fetchData k2 q2 true timeout cacheTime (clock0 + changeAt) (clock0 + t2)
      r1.cache r1.state
    (r2.state, r2.cache)
  else
    let b2 := fetchBegin k2 true cacheTime (clock0 + changeAt) cache b1.1
    if b2.2 = false then
      let r1 := fetchRequest k1 q1 timeout (clock0 + t1) cache b2.1
      (r1.state, r1.cache)
    else if t1 ≤ t2 then
      let r1 := fetchRequest k1 q1 timeout (clock0 + t1) cache b2.1
      let r2 := fetchRequest k2 q2 timeout (clock0 + t2) r1.cache r1.state
      (r2.state, r2.cache)
    else
      let r2 := fetchRequest k2 q2 timeout (clock0 + t2) cache b2.1
      let r1 := fetchRequest k1 q1 timeout (clock0 + t1) r2.cache r2.state
      (r1.state, r1.cache)

/-! ## The session and profile controller -/

/-- The three state cells of `AuthProvider` (AuthContext.jsx 15-17). -/
structure AuthState where
  user : JSVal
  loading : Bool
  profile : JSVal

/-- The initial values of the state cells. -/
def initialAuthState : AuthState :=
  { user := JSVal.null, loading := true, profile := JSVal.null }

/-- The race `Promise.race([call, timeoutPromise])` written out in `getSession` and
`fetchProfile`, the timer, created before the call is made, rejecting with
`new Error(errorMessage)` after `timeoutMs`.  A call that throws synchronously reaches the
`catch` block like a rejection. -/
def raceInvocation (call : Invocation) (timeoutMs : Nat) (errorMessage : String) :
    Settlement JSVal :=
  match call with
  | Invocation.throws reason => Settlement.rejected reason
  | Invocation.returns promise => (raceTimerFirst promise timeoutMs errorMessage).2

/-- Source: `fetchProfile` (AuthContext.jsx 72-98), as the change the run makes to the state
cells when its race settles.  `profileQuery` is what building and sending the query does. -/
def fetchProfile (profileQuery : Invocation) (state : AuthState) : AuthState :=
  match raceInvocation profileQuery 3000 "Profile fetch timeout" with
  | Settlement.rejected _ => { state with profile := JSVal.null }
  | Settlement.fulfilled value =>
    match getProp value "data" with
    | Except.error _ => { state with profile := JSVal.null }
    | Except.ok data =>
      match getProp value "error" with
      | Except.error _ => { state with profile := JSVal.null }
      | Except.ok error =>
        if truthy error && !strictEqStr (optionalProp error "code") "PGRST116" then state
        else { state with profile := jsOr data JSVal.null }

/-- What a run of `getSession` leaves behind: the state cells, and the user id for which
`fetchProfile` was started, if it was. -/
structure SessionRun where
  state : AuthState
  profileFetch : Option JSVal

/-- The `catch` and `finally` blocks of `getSession` (AuthContext.jsx 39-48). -/
def getSessionCatch (mounted : Bool) (state : AuthState) : SessionRun :=
  if mounted then
    { state := { state with user := JSVal.null, loading := false }, profileFetch := none }
  else { state := state, profileFetch := none }

/-- Source: `getSession` (AuthContext.jsx 23-49), as the change the run makes when its race
settles; `mounted` is the value of the flag at that moment.  `sessionCall` is what
`supabase.auth.getSession()` does. -/
def getSession (sessionCall : Invocation) (mounted : Bool) (state : AuthState) : SessionRun :=
  match raceInvocation sessionCall 5000 "Session timeout" with
  | Settlement.rejected _ => getSessionCatch mounted state
  | Settlement.fulfilled value =>
    match getProp value "data" with
    | Except.error _ => getSessionCatch mounted state
    | Except.ok data =>
      match getProp data "session" with
      | Except.error _ => getSessionCatch mounted state
      | Except.ok session =>
        if !mounted then { state := state, profileFetch := none }
        else
          let sessionUser := optionalProp session "user"
          let signedIn : AuthState :=
            { state with user := nullishOr sessionUser JSVal.null, loading := false }
          if truthy sessionUser then
            { state := signedIn, profileFetch := some (optionalProp sessionUser "id") }
          else { state := signedIn, profileFetch := none }

/-- The body of the `try` block of `fetchProfile` (AuthContext.jsx 73-92): `.ok s` is the
block running to its end (or to its `return`) with state cells `s`, `.error e` is the
exception `e` reaching the `catch` block. -/
def fetchProfileTry (profileQuery : Invocation) (state : AuthState) : Except JSVal AuthState :=
  match raceInvocation profileQuery 3000 "Profile fetch timeout" with
  | Settlement.rejected reason => Except.error reason
  | Settlement.fulfilled value =>
    match getProp value "data" with
    | Except.error e => Except.error e
    | Except.ok data =>
      match getProp value "error" with
      | Except.error e => Except.error e
      | Except.ok error =>
        if truthy error && !strictEqStr (optionalProp error "code") "PGRST116" then
          Except.ok state
        else Except.ok { state with profile := jsOr data JSVal.null }

/-- Source: `fetchProfile` (AuthContext.jsx 72-98) with what the promise it returns settles
to: the `try` block, and the `catch` block (`console.error`, `setProfile(null)`), after
which the function ends without a value. -/
def fetchProfileRun (profileQuery : Invocation) (state : AuthState) :
    AuthState × Except JSVal JSVal :=
  match fetchProfileTry profileQuery state with
  | Except.ok s => (s, Except.ok JSVal.undefined)
  | Except.error _ => ({ state with profile := JSVal.null }, Except.ok JSVal.undefined)

/-- Source: the callback given to `onAuthStateChange` (AuthContext.jsx 54-64), run on a
notification carrying `session`; `mounted` is the value of the flag at that moment. -/
def onAuthStateChange (session : JSVal) (mounted : Bool) (state : AuthState) : SessionRun :=
  if !mounted then { state := state, profileFetch := none }
  else
    let sessionUser := optionalProp session "user"
    if truthy sessionUser then
      { state := { state with user := nullishOr sessionUser JSVal.null, loading := false },
        profileFetch := some (optionalProp sessionUser "id") }
    else
      { state := { user := nullishOr sessionUser JSVal.null, loading := false,
                   profile := JSVal.null },
        profileFetch := none }

/-- What awaiting a call without a deadline gives: how the call settles, or `none` when it
never does (the function awaiting it then never returns).  A call that throws synchronously
reaches the `catch` block like a rejection. -/
def awaitCall (call : Invocation) : Option (Settlement JSVal) :=
  match call with
  | Invocation.throws reason => some (Settlement.rejected reason)
  | Invocation.returns none => none
  | Invocation.returns (some (_, s)) => some s

/-- What a call of `signUp` amounts to: what the returned promise resolves to (`none` when it
never settles) and how many profile inserts were issued. -/
structure SignUpRun where
  result : Option JSVal
  inserts : Nat

/-- The part of `signUp` after the error check (AuthContext.jsx 115-133), `data` being the
sign-up data: the insert of the profile row when a user was created, and the result. -/
def signUpProfile (insertCall : Invocation) (data : JSVal) : SignUpRun :=
  match getProp data "user" with
  | Except.error e => { result := some (mkResult JSVal.null e), inserts := 0 }
  | Except.ok user =>
    if truthy user then
      match awaitCall insertCall with
      | none => { result := none, inserts := 1 }
      | some (Settlement.rejected e) => { result := some (mkResult JSVal.null e), inserts := 1 }
      | some (Settlement.fulfilled inserted) =>
        match destructureProp inserted "error" with
        | Except.error e => { result := some (mkResult JSVal.null e), inserts := 1 }
        | Except.ok _ => { result := some (mkResult data JSVal.null), inserts := 1 }
    else { result := some (mkResult data JSVal.null), inserts := 0 }

/-- Source: `signUp` (AuthContext.jsx 100-137).  `authCall` is what `supabase.auth.signUp(...)`
does, `insertCall` what the insert into `users` does. -/
def signUp (authCall insertCall : Invocation) : SignUpRun :=
  match awaitCall authCall with
  | none => { result := none, inserts := 0 }
  | some (Settlement.rejected e) => { result := some (mkResult JSVal.null e), inserts := 0 }
  | some (Settlement.fulfilled value) =>
    match destructureProp value "data" with
    | Except.error e => { result := some (mkResult JSVal.null e), inserts := 0 }
    | Except.ok data =>
      match destructureProp value "error" with
      | Except.error e => { result := some (mkResult JSVal.null e), inserts := 0 }
      | Except.ok error =>
        if truthy error then { result := some (mkResult JSVal.null error), inserts := 0 }
        else signUpProfile insertCall data

/-- Source: `signOut` (AuthContext.jsx 151-158): what the returned promise resolves to, the
object `{ error }`; `none` when the backend call never settles.  No state cell is written. -/
def signOut (call : Invocation) : Option JSVal :=
  match awaitCall call with
  | none => none
  | some (Settlement.rejected e) => some (JSVal.obj [("error", e)])
  | some (Settlement.fulfilled value) =>
    match destructureProp value "error" with
    | Except.error e => some (JSVal.obj [("error", e)])
    | Except.ok error => some (JSVal.obj [("error", error)])

/-- What a call of `updateProfile` amounts to: the state cells, what the returned promise
resolves to (`none` when it never settles), and how many backend updates were issued. -/
structure UpdateRun where
  state : AuthState
  result : Option JSVal
  updates : Nat

/-- Source: `updateProfile` (AuthContext.jsx 160-178).  `updateCall` is what the update query
does. -/
def updateProfile (updateCall : Invocation) (state : AuthState) : UpdateRun :=
  if !truthy state.user then
    { state := state, result := some (mkResult JSVal.null (mkError "No user logged in")),
      updates := 0 }
  else
    match awaitCall updateCall with
    | none => { state := state, result := none, updates := 1 }
    | some (Settlement.rejected e) =>
      { state := state, result := some (mkResult JSVal.null e), updates := 1 }
    | some (Settlement.fulfilled value) =>
      match destructureProp value "data" with
      | Except.error e => { state := state, result := some (mkResult JSVal.null e), updates := 1 }
      | Except.ok data =>
        match destructureProp value "error" with
        | Except.error e =>
          { state := state, result := some (mkResult JSVal.null e), updates := 1 }
        | Except.ok error =>
          if truthy error then
            { state := state, result := some (mkResult JSVal.null error), updates := 1 }
          else
            { state := { state with profile := data },
              result := some (mkResult data JSVal.null), updates := 1 }

/-- The controller set up by the effect of `AuthProvider` (AuthContext.jsx 19-70): the state
cells, the `mounted` flag (true from the run of the effect to its cleanup, which is the time
the component is mounted), whether the change-notification subscription is held, and the
number of profile fetches started and not yet settled. -/
structure Controller where
  state : AuthState
  mounted : Bool
  subscribed : Bool
  inFlight : Nat

/-- The controller right after the effect has run: `getSession` is in flight and the
subscription is held. -/
def initialController : Controller :=
  { state := initialAuthState, mounted := true, subscribed := true, inFlight := 0 }

/-- What can happen to the controller: the race of `getSession` settles, a change
notification is delivered to the callback, the race of a profile fetch in flight settles,
the effect is torn down. -/
inductive AuthEvent where
  | sessionSettled (sessionCall : Invocation) : AuthEvent
  | authChange (session : JSVal) : AuthEvent
  | profileSettled (profileQuery : Invocation) : AuthEvent
  | teardown : AuthEvent

/-- The controller after a run of `getSession` or of the notification callback: the state
cells of the run, and one more profile fetch in flight when the run started one. -/
def afterRun (c : Controller) (run : SessionRun) : Controller :=
  { c with state := run.state,
           inFlight := if run.profileFetch.isSome then c.inFlight + 1 else c.inFlight }

/-- One event.  The cleanup of the effect (AuthContext.jsx 66-69) clears `mounted` and
releases the subscription; the effect has no dependencies, so the cleanup runs when
`AuthProvider` is unmounted, and from then on the state cells are gone: a setter called later
changes nothing.  A profile fetch can settle only when one is in flight; its continuation
does not look at `mounted`, so after the teardown it is the unmounting alone that keeps its
`setProfile` from taking effect. -/
def stepController (c : Controller) : AuthEvent → Controller
  | AuthEvent.sessionSettled sessionCall => afterRun c (getSession sessionCall c.mounted c.state)
  | AuthEvent.authChange session => afterRun c (onAuthStateChange session c.mounted c.state)
  | AuthEvent.profileSettled profileQuery =>
    if c.inFlight = 0 then c
    else if c.mounted then
      { c with state := fetchProfile profileQuery c.state, inFlight := c.inFlight - 1 }
    else { c with inFlight := c.inFlight - 1 }
  | AuthEvent.teardown => { c with mounted := false, subscribed := false }

/-- The controller after a sequence of events. -/
def runController (c : Controller) (events : List AuthEvent) : Controller :=
  events.foldl stepController c

/-- Modelled from the spec: what the backend client (`supabaseClient`, which is not among the
sources) pushes to the controller on a call of `auth.signOut()`.  Section 4.5 of the spec has
`signOut()` invalidate the backend session and the controller move to unauthenticated, and
has the controller subscribed to "a push-style backend notification channel for auth state
changes (sign-in elsewhere, token refresh, sign-out)".  So a sign-out that the backend answers
without an error pushes one change notification, whose session is absent, to a subscription
that is held; a sign-out that is answered with an error, rejects or never settles pushes
none, and neither does any sign-out once the subscription is released. -/
def backendSignOutNotifications (call : Invocation) (subscribed : Bool) : List AuthEvent :=
  match awaitCall call with
  | some (Settlement.fulfilled value) =>
    match destructureProp value "error" with
    | Except.ok error =>
      if !truthy error && subscribed then [AuthEvent.authChange JSVal.null] else []
    | Except.error _ => []
  | _ => []

/-- A call of `signOut` on the controller: what the promise of `signOut` resolves to, and the
controller once the notifications pushed by the backend have been handled. -/
def signOutOnController (call : Invocation) (c : Controller) : Option JSVal × Controller :=
  (signOut call, runController c (backendSignOutNotifications call c.subscribed))

/-! ## Notions used in the statements -/

/-- The keys of the cache, in insertion order. -/
def cacheKeys (cache : QueryCache) : List String :=
  cache.map Prod.fst

/-- Whether a value is a string. -/
def isString : JSVal → Bool
  | JSVal.str _ => true
  | _ => false

/-- The values an error handler can be asked to classify without itself throwing: every
value other than `undefined` and `null` whose `message`, when it has one, is a string. -/
def isErrorLike : JSVal → Bool
  | JSVal.undefined => false
  | JSVal.null => false
  | JSVal.obj fields =>
    match lookupField "message" fields with
    | none => true
    | some JSVal.undefined => true
    | some JSVal.null => true
    | some (JSVal.str _) => true
    | some _ => false
  | _ => true

/-- The invocation settles only after the deadline `d` has elapsed (or never settles). -/
def settlesAfter (invocation : Invocation) (d : Nat) : Prop :=
  match invocation with
  | Invocation.throws _ => False
  | Invocation.returns none => True
  | Invocation.returns (some (t, _)) => d < t

/-- The text of `e.message` when it is a string. -/
def messageText (e : JSVal) : Option String :=
  match getProp e "message" with
  | Except.ok (JSVal.str s) => some s
  | _ => none

/-- Whether `e.code === literal`. -/
def codeIs (e : JSVal) (literal : String) : Bool :=
  match getProp e "code" with
  | Except.ok c => strictEqStr c literal
  | Except.error _ => false

/-- Whether `e.message` is a string containing `timeout`. -/
def mentionsTimeout (e : JSVal) : Bool :=
  match messageText e with
  | some s => includes s "timeout"
  | none => false

/-- Following the spec's words: the message of a failure is the "timed out" message when the
error's message contains `timeout`; otherwise the "no data found" message when its code is
`PGRST116`; otherwise the error's own message, or the generic message when that is missing
or empty. -/
def classifiedMessage (e : JSVal) : String :=
  if mentionsTimeout e then "Request timed out. Please try again."
  else if codeIs e "PGRST116" then "No data found."
  else
    match messageText e with
    | some s => if s = "" then "Something went wrong." else s
    | none => "Something went wrong."

/-- The reasons with which the invocation can throw or reject are error-like. -/
def failureReasonOK : Invocation → Bool
  | Invocation.throws reason => isErrorLike reason
  | Invocation.returns (some (_, Settlement.rejected reason)) => isErrorLike reason
  | Invocation.returns _ => true

/-- An error-like value with the "no row found" code whose message does not mention a
timeout. -/
def isNotFoundError (e : JSVal) : Bool :=
  isErrorLike e && codeIs e "PGRST116" && !mentionsTimeout e

/-- The messages of the errors that can reach the `catch` block of `batchQueries`: the one
of the timer, and those of the `TypeError` thrown by reading `message` of an `undefined` or
`null` rejection reason. -/
def batchFailureMessages : List String :=
  ["Batch queries timeout",
   "Cannot read properties of undefined (reading \x27message\x27)",
   "Cannot read properties of null (reading \x27message\x27)"]

/-! ## Concrete inputs -/

/-- An operation whose every invocation resolves after 6000 ms. -/
def lateOperation : Nat → Invocation :=
  fun _ => Invocation.returns (some (6000, Settlement.fulfilled (mkResult (JSVal.num 1) JSVal.null)))

/-- A backend error object carrying the "no row found" code. -/
def notFoundError : JSVal :=
  JSVal.obj [("code", JSVal.str "PGRST116"), ("message", JSVal.str "no rows")]

/-- An operation whose every invocation rejects after 10 ms with the "no row found" error. -/
def rejectsNotFound : Nat → Invocation :=
  fun _ => Invocation.returns (some (10, Settlement.rejected notFoundError))

/-- An operation whose every invocation resolves after 10 ms with a result carrying the
"no row found" error, the way the backend client reports it. -/
def resolvesNotFound : Nat → Invocation :=
  fun _ => Invocation.returns
    (some (10, Settlement.fulfilled (mkResult JSVal.null notFoundError)))

/-- An operation whose every invocation rejects at once without a reason. -/
def rejectsBare : Nat → Invocation :=
  fun _ => Invocation.returns (some (0, Settlement.rejected JSVal.undefined))

/-- An operation whose first invocation resolves after 20 ms with a result object. -/
def promptOperation : Nat → Invocation :=
  fun _ => Invocation.returns
    (some (20, Settlement.fulfilled (mkResult (JSVal.str "rows") JSVal.null)))

/-- A batch of two promises: one fulfilled at once with a result object, one rejected at once
without a reason (`Promise.reject()`). -/
def batchWithBareRejection : List (JSPromise JSVal) :=
  [some (0, Settlement.fulfilled (mkResult (JSVal.num 1) JSVal.null)),
   some (0, Settlement.rejected JSVal.undefined)]

/-- A batch of two promises: one fulfilled after 10 ms, one that never settles. -/
def batchWithPending : List (JSPromise JSVal) :=
  [some (10, Settlement.fulfilled (mkResult (JSVal.num 1) JSVal.null)), none]

/-- Three settled promises of a batch: fulfilled after 5 ms, rejected after 7 ms with
`new Error('boom')`, fulfilled after 9 ms. -/
def batchOneFailure : List (Nat × Settlement JSVal) :=
  [(5, Settlement.fulfilled (mkResult (JSVal.str "a") JSVal.null)),
   (7, Settlement.rejected (mkError "boom")),
   (9, Settlement.fulfilled (mkResult (JSVal.str "c") JSVal.null))]

/-- A cache holding one entry, stored under `loc1` at time 0. -/
def cacheWithLoc1 : QueryCache :=
  [("loc1", { data := JSVal.str "X", timestamp := 0 })]

/-- An operation invocation that resolves after 20 ms with a result object. -/
def promptInvocation : Invocation :=
  Invocation.returns (some (20, Settlement.fulfilled (mkResult (JSVal.str "rows") JSVal.null)))

/-- The request for the first key: it resolves after 4000 ms with `"A"`. -/
def slowRequestA : Invocation :=
  Invocation.returns (some (4000, Settlement.fulfilled (JSVal.str "A")))

/-- The request for the second key: it resolves after 50 ms with `"B"`. -/
def quickRequestB : Invocation :=
  Invocation.returns (some (50, Settlement.fulfilled (JSVal.str "B")))

/-- A backend error object other than "no row found". -/
def permissionError : JSVal :=
  JSVal.obj [("code", JSVal.str "42501"), ("message", JSVal.str "permission denied")]

/-- A profile row. -/
def loadedProfile : JSVal :=
  JSVal.obj [("id", JSVal.str "u1"), ("full_name", JSVal.str "Ann")]

/-- The controller with a user signed in and a profile loaded. -/
def signedInState : AuthState :=
  { user := JSVal.obj [("id", JSVal.str "u1")], loading := false, profile := loadedProfile }

/-- A profile query answered after 100 ms with a backend error result. -/
def profileQueryDenied : Invocation :=
  Invocation.returns (some (100, Settlement.fulfilled (mkResult JSVal.null permissionError)))

/-- A session call that never settles. -/
def sessionCallPending : Invocation :=
  Invocation.returns none

/-- The data of a successful sign-up: a created user. -/
def signUpData : JSVal :=
  JSVal.obj [("user", JSVal.obj [("id", JSVal.str "u1")])]

/-- A sign-up call answered with a created user and no error. -/
def signUpCallOk : Invocation :=
  Invocation.returns (some (300, Settlement.fulfilled (mkResult signUpData JSVal.null)))

/-- A sign-up call answered with a backend error. -/
def signUpCallDenied : Invocation :=
  Invocation.returns (some (300, Settlement.fulfilled (mkResult JSVal.null permissionError)))

/-- An insert of the profile row answered with a backend error. -/
def insertCallDenied : Invocation :=
  Invocation.returns (some (200, Settlement.fulfilled (mkResult JSVal.null permissionError)))

/-- An insert of the profile row that rejects. -/
def insertCallRejects : Invocation :=
  Invocation.returns (some (200, Settlement.rejected (mkError "Failed to fetch")))

/-- An update query answered with the updated row. -/
def updateCallOk : Invocation :=
  Invocation.returns (some (150, Settlement.fulfilled (mkResult loadedProfile JSVal.null)))

/-- A sign-out call answered without an error. -/
def signOutCallOk : Invocation :=
  Invocation.returns (some (80, Settlement.fulfilled (JSVal.obj [("error", JSVal.null)])))

/-- A session carrying the user `u1`. -/
def sessionOfU1 : JSVal :=
  JSVal.obj [("user", JSVal.obj [("id", JSVal.str "u1")])]

/-- A profile query answered after 100 ms with the profile row of `u1`. -/
def profileQueryOk : Invocation :=
  Invocation.returns (some (100, Settlement.fulfilled (mkResult loadedProfile JSVal.null)))

/-- An operation whose every invocation resolves at once with `undefined`. -/
def resolvesUndefined : Nat → Invocation :=
  fun _ => Invocation.returns (some (0, Settlement.fulfilled JSVal.undefined))

/-- An operation whose every invocation resolves at once with `null`. -/
def resolvesNull : Nat → Invocation :=
  fun _ => Invocation.returns (some (0, Settlement.fulfilled JSVal.null))

/-- An error object whose `message` is a number. -/
def numericMessageError : JSVal :=
  JSVal.obj [("message", JSVal.num 42)]

/-- A batch of one promise, rejected at once with the plain string `"plain"`. -/
def batchWithPlainReason : List (JSPromise JSVal) :=
  [some (0, Settlement.rejected (JSVal.str "plain"))]

/-! ## Theorems -/

theorem tryAttempt_late (invocation : Invocation) (d : Nat) (h : settlesAfter invocation d) :
    tryAttempt invocation d = Except.error (mkError "Request timeout") := by
  match invocation, h with
  | Invocation.returns none, _ => rfl
  | Invocation.returns (some (t, s)), h =>
    have ht : ¬ t ≤ d := by simpa [settlesAfter] using h
    simp [tryAttempt, withTimeout, ht]

theorem attemptLoop_all_fail (queryFn : Nat → Invocation) (timeout : Nat) (f : JSVal)
    (retries : Int) (errs : Nat → JSVal)
    (hfail : ∀ k, tryAttempt (queryFn k) timeout = Except.error (errs k)) :
    ∀ (n attempt calls : Nat) (waits : List Nat), (attempt : Int) + n = retries →
      attemptLoop queryFn timeout f retries (n + 1) attempt calls waits
        = ⟨handleSupabaseError (errs (calls + n)) f, calls + n + 1,
            waits ++ List.replicate n 1000⟩ := by
  intro n
  induction n with
  | zero =>
    intro attempt calls waits h
    have h1 : (attempt : Int) ≤ retries := by omega
    have h2 : (attempt : Int) = retries := by omega
    simp [attemptLoop, h1, h2, hfail]
  | succ n ih =>
    intro attempt calls waits h
    have h1 : (attempt : Int) ≤ retries := by omega
    have h2 : ¬ (attempt : Int) = retries := by omega
    have h3 : ((attempt + 1 : Nat) : Int) + n = retries := by push_cast; omega
    rw [attemptLoop]
    simp only [h1, h2, hfail, if_true, if_false]
    rw [ih (attempt + 1) (calls + 1) (waits ++ [1000]) h3]
    simp [List.replicate_succ, Nat.add_assoc, Nat.add_comm 1 n]

/-- The iteration bound passed by `optimizedQuery` is never what stops the loop: once the
bound covers the iterations the loop condition allows, a larger bound gives the same run. -/
theorem attemptLoop_fuel_irrelevant (queryFn : Nat → Invocation) (timeout : Nat) (f : JSVal)
    (retries : Int) :
    ∀ (fuel attempt calls : Nat) (waits : List Nat),
      (retries + 1 - (attempt : Int)).toNat ≤ fuel →
      attemptLoop queryFn timeout f retries (fuel + 1) attempt calls waits
        = attemptLoop queryFn timeout f retries fuel attempt calls waits := by
  intro fuel
  induction fuel with
  | zero =>
    intro attempt calls waits h
    have h1 : ¬ (attempt : Int) ≤ retries := by omega
    simp [attemptLoop, h1]
  | succ n ih =>
    intro attempt calls waits h
    conv_lhs => rw [attemptLoop]
    conv_rhs => rw [attemptLoop]
    by_cases h1 : (attempt : Int) ≤ retries
    · cases ht : tryAttempt (queryFn calls) timeout with
      | ok v => simp [h1]
      | error e =>
        by_cases h2 : (attempt : Int) = retries
        · simp [h1, h2]
        · have h3 : (retries + 1 - ((attempt + 1 : Nat) : Int)).toNat ≤ n := by
            push_cast
            omega
          simp only [h1, h2, if_true, if_false]
          exact ih (attempt + 1) (calls + 1) (waits ++ [1000]) h3
    · simp [h1]

theorem toNat_retries_succ (r : Nat) : ((r : Int) + 1).toNat = r + 1 := by
  omega

theorem handleSupabaseError_eq (e f : JSVal) (h : isErrorLike e = true) :
    handleSupabaseError e f = Except.ok (mkResult f (JSVal.str (classifiedMessage e))) := by
  cases e with
  | undefined => simp [isErrorLike] at h
  | null => simp [isErrorLike] at h
  | bool b =>
    simp [handleSupabaseError, getProp, optionalIncludes, truthy, strictEqStr, jsOr,
      classifiedMessage, mentionsTimeout, messageText, codeIs]
  | num n =>
    simp [handleSupabaseError, getProp, optionalIncludes, truthy, strictEqStr, jsOr,
      classifiedMessage, mentionsTimeout, messageText, codeIs]
  | str s =>
    simp [handleSupabaseError, getProp, optionalIncludes, truthy, strictEqStr, jsOr,
      classifiedMessage, mentionsTimeout, messageText, codeIs]
  | obj fields =>
    simp only [isErrorLike] at h
    cases hm : lookupField "message" fields with
    | none =>
      by_cases hc : strictEqStr ((lookupField "code" fields).getD JSVal.undefined) "PGRST116" = true
      · simp [handleSupabaseError, getProp, optionalIncludes, truthy, jsOr,
          classifiedMessage, mentionsTimeout, messageText, codeIs, hm, hc]
      · simp [handleSupabaseError, getProp, optionalIncludes, truthy, jsOr,
          classifiedMessage, mentionsTimeout, messageText, codeIs, hm, hc]
    | some m =>
      rw [hm] at h
      cases m with
      | undefined =>
        by_cases hc : strictEqStr ((lookupField "code" fields).getD JSVal.undefined) "PGRST116" = true
        · simp [handleSupabaseError, getProp, optionalIncludes, truthy, jsOr,
            classifiedMessage, mentionsTimeout, messageText, codeIs, hm, hc]
        · simp [handleSupabaseError, getProp, optionalIncludes, truthy, jsOr,
            classifiedMessage, mentionsTimeout, messageText, codeIs, hm, hc]
      | null =>
        by_cases hc : strictEqStr ((lookupField "code" fields).getD JSVal.undefined) "PGRST116" = true
        · simp [handleSupabaseError, getProp, optionalIncludes, truthy, jsOr,
            classifiedMessage, mentionsTimeout, messageText, codeIs, hm, hc]
        · simp [handleSupabaseError, getProp, optionalIncludes, truthy, jsOr,
            classifiedMessage, mentionsTimeout, messageText, codeIs, hm, hc]
      | str s =>
        by_cases ht : includes s "timeout" = true
        · simp [handleSupabaseError, getProp, optionalIncludes, truthy,
            classifiedMessage, mentionsTimeout, messageText, hm, ht]
        · by_cases hc : strictEqStr ((lookupField "code" fields).getD JSVal.undefined) "PGRST116" = true
          · simp [handleSupabaseError, getProp, optionalIncludes, truthy, jsOr,
              classifiedMessage, mentionsTimeout, messageText, codeIs, hm, hc, ht]
          · by_cases hs : s = ""
            · subst hs
              simp [handleSupabaseError, getProp, optionalIncludes, truthy, jsOr,
                classifiedMessage, mentionsTimeout, messageText, codeIs, hm, hc, ht]
            · simp [handleSupabaseError, getProp, optionalIncludes, truthy, jsOr,
                classifiedMessage, mentionsTimeout, messageText, codeIs, hm, hc, ht, hs]
      | bool b => simp at h
      | num n => simp at h
      | obj fs => simp at h

theorem isErrorLike_mkError (s : String) : isErrorLike (mkError s) = true := by
  simp [mkError, isErrorLike, lookupField]

theorem getProp_error (v : JSVal) (p : String) (e : JSVal)
    (h : getProp v p = Except.error e) : ∃ s, e = mkError s := by
  cases v <;> simp [getProp] at h <;> exact ⟨_, h.symm⟩

theorem getProp_ok_of_not_nullish (v : JSVal) (p : String) (h : isNullish v = false) :
    ∃ x, getProp v p = Except.ok x := by
  cases v <;> simp [isNullish] at h <;> simp [getProp]

theorem tryAttempt_ok_inv (invocation : Invocation) (timeout : Nat) (r : JSVal)
    (h : tryAttempt invocation timeout = Except.ok r) :
    ∃ t v d e, invocation = Invocation.returns (some (t, Settlement.fulfilled v)) ∧
      t ≤ timeout ∧ getProp v "data" = Except.ok d ∧ getProp v "error" = Except.ok e ∧
      r = mkResult d e := by
  cases invocation with
  | throws reason => simp [tryAttempt] at h
  | returns promise =>
    cases promise with
    | none => simp [tryAttempt, withTimeout] at h
    | some ts =>
      obtain ⟨t, s⟩ := ts
      by_cases ht : t ≤ timeout
      · cases s with
        | rejected reason => simp [tryAttempt, withTimeout, ht] at h
        | fulfilled v =>
          cases hd : getProp v "data" with
          | error x => simp [tryAttempt, withTimeout, ht, hd] at h
          | ok d =>
            cases he : getProp v "error" with
            | error x => simp [tryAttempt, withTimeout, ht, hd, he] at h
            | ok e =>
              simp [tryAttempt, withTimeout, ht, hd, he] at h
              exact ⟨t, v, d, e, rfl, ht, hd, he, h.symm⟩
      · simp [tryAttempt, withTimeout, ht] at h

theorem tryAttempt_error_like (invocation : Invocation) (timeout : Nat) (e : JSVal)
    (hok : failureReasonOK invocation = true)
    (h : tryAttempt invocation timeout = Except.error e) : isErrorLike e = true := by
  cases invocation with
  | throws reason =>
    simp [tryAttempt] at h
    subst h
    simpa [failureReasonOK] using hok
  | returns promise =>
    cases promise with
    | none =>
      simp [tryAttempt, withTimeout] at h
      subst h
      exact isErrorLike_mkError _
    | some ts =>
      obtain ⟨t, s⟩ := ts
      by_cases ht : t ≤ timeout
      · cases s with
        | rejected reason =>
          simp [tryAttempt, withTimeout, ht] at h
          subst h
          simpa [failureReasonOK] using hok
        | fulfilled v =>
          cases hd : getProp v "data" with
          | error x =>
            simp [tryAttempt, withTimeout, ht, hd] at h
            subst h
            obtain ⟨m, hm⟩ := getProp_error v "data" x hd
            rw [hm]
            exact isErrorLike_mkError _
          | ok d =>
            cases he : getProp v "error" with
            | error x =>
              simp [tryAttempt, withTimeout, ht, hd, he] at h
              subst h
              obtain ⟨m, hm⟩ := getProp_error v "error" x he
              rw [hm]
              exact isErrorLike_mkError _
            | ok e2 => simp [tryAttempt, withTimeout, ht, hd, he] at h
      · simp [tryAttempt, withTimeout, ht] at h
        subst h
        exact isErrorLike_mkError _

theorem attemptLoop_shape (queryFn : Nat → Invocation) (timeout : Nat) (f : JSVal)
    (retries : Int) (hok : ∀ k, failureReasonOK (queryFn k) = true) :
    ∀ (n attempt calls : Nat) (waits : List Nat), (attempt : Int) + n = retries →
      ∃ data error,
        (attemptLoop queryFn timeout f retries (n + 1) attempt calls waits).outcome
          = Except.ok (mkResult data error) ∧
        (isString error = true ∨
          ∃ k t v, queryFn k = Invocation.returns (some (t, Settlement.fulfilled v)) ∧
            t ≤ timeout ∧ getProp v "error" = Except.ok error) := by
  intro n
  induction n with
  | zero =>
    intro attempt calls waits h
    have h1 : (attempt : Int) ≤ retries := by omega
    have h2 : (attempt : Int) = retries := by omega
    cases ht : tryAttempt (queryFn calls) timeout with
    | ok r =>
      obtain ⟨t, v, d, e, hq, htime, _, he, hr⟩ := tryAttempt_ok_inv _ _ _ ht
      refine ⟨d, e, ?_, Or.inr ⟨calls, t, v, hq, htime, he⟩⟩
      simp [attemptLoop, h1, ht, hr]
    | error e =>
      have hlike := tryAttempt_error_like _ _ _ (hok calls) ht
      refine ⟨f, JSVal.str (classifiedMessage e), ?_, Or.inl rfl⟩
      simp [attemptLoop, h1, h2, ht, handleSupabaseError_eq e f hlike]
  | succ n ih =>
    intro attempt calls waits h
    have h1 : (attempt : Int) ≤ retries := by omega
    have h2 : ¬ (attempt : Int) = retries := by omega
    have h3 : ((attempt + 1 : Nat) : Int) + n = retries := by push_cast; omega
    cases ht : tryAttempt (queryFn calls) timeout with
    | ok r =>
      obtain ⟨t, v, d, e, hq, htime, _, he, hr⟩ := tryAttempt_ok_inv _ _ _ ht
      refine ⟨d, e, ?_, Or.inr ⟨calls, t, v, hq, htime, he⟩⟩
      rw [attemptLoop]
      simp [h1, ht, hr]
    | error e =>
      obtain ⟨d, er, hout, hcase⟩ := ih (attempt + 1) (calls + 1) (waits ++ [1000]) h3
      refine ⟨d, er, ?_, hcase⟩
      rw [attemptLoop]
      simp only [h1, h2, ht, if_true, if_false]
      exact hout

theorem classifiedMessage_notFound (e : JSVal) (h : isNotFoundError e = true) :
    classifiedMessage e = "No data found." := by
  simp only [isNotFoundError, Bool.and_eq_true, Bool.not_eq_true'] at h
  obtain ⟨⟨_, hc⟩, hm⟩ := h
  simp [classifiedMessage, hc, hm]

theorem tryAttempt_in_time (t timeout : Nat) (v d e : JSVal) (ht : t ≤ timeout)
    (hd : getProp v "data" = Except.ok d) (he : getProp v "error" = Except.ok e) :
    tryAttempt (Invocation.returns (some (t, Settlement.fulfilled v))) timeout
      = Except.ok (mkResult d e) := by
  simp [tryAttempt, withTimeout, ht, hd, he]

theorem tryAttempt_rejected_in_time (t timeout : Nat) (reason : JSVal) (ht : t ≤ timeout) :
    tryAttempt (Invocation.returns (some (t, Settlement.rejected reason))) timeout
      = Except.error reason := by
  simp [tryAttempt, withTimeout, ht]

theorem optimizedQuery_first_ok (queryFn : Nat → Invocation) (d : Nat) (f : JSVal) (r : Nat)
    (v : JSVal) (h : tryAttempt (queryFn 0) d = Except.ok v) :
    optimizedQuery queryFn { timeout := d, fallbackData := f, retries := (r : Int) }
      = ⟨Except.ok v, 1, []⟩ := by
  have h1 : ((0 : Nat) : Int) ≤ (r : Int) := by omega
  simp only [optimizedQuery, toNat_retries_succ]
  rw [attemptLoop]
  simp [h1, h]

theorem optimizedQuery_all_fail (queryFn : Nat → Invocation) (d : Nat) (f : JSVal) (r : Nat)
    (errs : Nat → JSVal) (hfail : ∀ k, tryAttempt (queryFn k) d = Except.error (errs k)) :
    optimizedQuery queryFn { timeout := d, fallbackData := f, retries := (r : Int) }
      = ⟨handleSupabaseError (errs r) f, r + 1, List.replicate r 1000⟩ := by
  have h := attemptLoop_all_fail queryFn d f (r : Int) errs hfail r 0 0 [] (by simp)
  simp only [optimizedQuery, toNat_retries_succ]
  rw [h]
  simp

/-- Claim C1: for every deadline `d`, fallback value `f` and retry count `r`, if every
invocation of the operation settles only after `d` has elapsed (or never settles), then
`optimizedQuery` resolves to `{ data: f, error: 'Request timed out. Please try again.' }`,
whatever the late operation produces. -/
theorem optimizedQuery_timeout_returns_fallback (queryFn : Nat → Invocation) (d : Nat)
    (f : JSVal) (r : Nat) (hlate : ∀ k, settlesAfter (queryFn k) d) :
    (optimizedQuery queryFn { timeout := d, fallbackData := f, retries := (r : Int) }).outcome
      = Except.ok (mkResult f (JSVal.str "Request timed out. Please try again.")) := by
  rw [optimizedQuery_all_fail queryFn d f r (fun _ => mkError "Request timeout")
    (fun k => tryAttempt_late (queryFn k) d (hlate k))]
  rfl

/-- Witness for C1: an operation resolving after 6000 ms against a 5000 ms deadline, with
one retry. -/
theorem optimizedQuery_timeout_returns_fallback_witness :
    (optimizedQuery lateOperation
        { timeout := 5000, fallbackData := JSVal.num 0, retries := 1 }).outcome
      = Except.ok (mkResult (JSVal.num 0) (JSVal.str "Request timed out. Please try again.")) :=
  optimizedQuery_timeout_returns_fallback lateOperation 5000 (JSVal.num 0) 1
    (fun _ => by simp [settlesAfter, lateOperation])

/-- Outside the error-like values the handler itself throws: reading `message` of
`undefined` is a `TypeError`. -/
theorem handleSupabaseError_undefined_throws (f : JSVal) :
    handleSupabaseError JSVal.undefined f
      = Except.error
          (mkError "Cannot read properties of undefined (reading \x27message\x27)") :=
  rfl

/-- With an operation that rejects without a reason, the `catch` block of the last attempt
throws, and the promise returned by `optimizedQuery` rejects. -/
theorem optimizedQuery_bare_rejection_rejects :
    (optimizedQuery rejectsBare { retries := 0 }).outcome
      = Except.error
          (mkError "Cannot read properties of undefined (reading \x27message\x27)") :=
  rfl

/-- Counterexample to C4: on the error `undefined`, and on an error whose `message` is the
number 42, the handler throws instead of returning a result; and with the fallback
`undefined` the result carries `data: null`, the default of the parameter, not the fallback. -/
theorem handleSupabaseError_counterexample :
    handleSupabaseError JSVal.undefined (defaultFallback (JSVal.num 7))
      = Except.error
          (mkError "Cannot read properties of undefined (reading \x27message\x27)") ∧
    handleSupabaseError numericMessageError (defaultFallback (JSVal.num 7))
      = Except.error (mkError "error.message?.includes is not a function") ∧
    handleSupabaseError notFoundError (defaultFallback JSVal.undefined)
      = Except.ok (mkResult JSVal.null (JSVal.str "No data found.")) :=
  ⟨rfl, rfl, rfl⟩

/-- Claim C4, amended: for every error `e` other than `undefined` and `null` whose `message`
is absent or a string, and every fallback argument `f`, the call `handleSupabaseError(e, f)`
returns `{ data, error: m }` where `data` is `f`, or `null` when `f` is `undefined`, and `m` is
the timed-out message when `e.message` contains `timeout`, otherwise the no-data message when
`e.code` is `PGRST116`, otherwise `e.message`, or the generic message when `e.message` is
missing or empty. -/
theorem handleSupabaseError_classifies (e f : JSVal) (h : isErrorLike e = true) :
    handleSupabaseError e (defaultFallback f)
      = Except.ok (mkResult (defaultFallback f) (JSVal.str (classifiedMessage e))) ∧
    (f = JSVal.undefined → defaultFallback f = JSVal.null) ∧
    (f ≠ JSVal.undefined → defaultFallback f = f) := by
  refine ⟨handleSupabaseError_eq e (defaultFallback f) h, ?_, ?_⟩
  · intro hf
    rw [hf]
    rfl
  · intro hf
    cases f <;> first | rfl | exact absurd rfl hf

/-- Witness for the amended C4: the "no row found" error with fallback value 7. -/
theorem handleSupabaseError_classifies_witness :
    handleSupabaseError notFoundError (defaultFallback (JSVal.num 7))
      = Except.ok (mkResult (JSVal.num 7) (JSVal.str "No data found.")) ∧
    (JSVal.num 7 = JSVal.undefined → defaultFallback (JSVal.num 7) = JSVal.null) ∧
    (JSVal.num 7 ≠ JSVal.undefined → defaultFallback (JSVal.num 7) = JSVal.num 7) :=
  handleSupabaseError_classifies notFoundError (JSVal.num 7) rfl

/-- Counterexample to C2: with `retries = 2`, an operation that rejects every time with a
`PGRST116`-coded error is invoked three times, with two backoff waits, and the helper returns
the error message `'No data found.'`; an operation that resolves with a result carrying that
error gets the error object back.  Neither is an error-free result after a single invocation. -/
theorem optimizedQuery_not_found_counterexample :
    (optimizedQuery rejectsNotFound { retries := 2 }).calls = 3 ∧
    (optimizedQuery rejectsNotFound { retries := 2 }).waits = [1000, 1000] ∧
    (optimizedQuery rejectsNotFound { retries := 2 }).outcome
      = Except.ok (mkResult JSVal.null (JSVal.str "No data found.")) ∧
    (optimizedQuery resolvesNotFound { retries := 2 }).outcome
      = Except.ok (mkResult JSVal.null notFoundError) := by
  refine ⟨by decide, by decide, rfl, rfl⟩

/-- Claim C2, amended: a `PGRST116`-coded failure is retried like any other.  When every
invocation rejects before the deadline with such an error (its message not mentioning a
timeout), the operation is invoked `r + 1` times with `r` waits of 1000 ms and the helper
returns `{ data: f, error: 'No data found.' }`; when the first invocation resolves before the
deadline with a result `{ data, error }`, the operation is invoked once and that `data` and
`error` are returned unchanged, the error included. -/
theorem optimizedQuery_not_found_is_retried (queryFn resolving : Nat → Invocation) (d : Nat)
    (f : JSVal) (r : Nat) (times : Nat → Nat) (errs : Nat → JSVal) (t : Nat) (data e : JSVal)
    (hrej : ∀ k, queryFn k = Invocation.returns (some (times k, Settlement.rejected (errs k)))
      ∧ times k < d ∧ isNotFoundError (errs k) = true)
    (hres : resolving 0 = Invocation.returns (some (t, Settlement.fulfilled (mkResult data e))))
    (ht : t < d) :
    optimizedQuery queryFn { timeout := d, fallbackData := f, retries := (r : Int) }
      = ⟨Except.ok (mkResult f (JSVal.str "No data found.")), r + 1, List.replicate r 1000⟩ ∧
    optimizedQuery resolving { timeout := d, fallbackData := f, retries := (r : Int) }
      = ⟨Except.ok (mkResult data e), 1, []⟩ := by
  constructor
  · have hfail : ∀ k, tryAttempt (queryFn k) d = Except.error (errs k) := by
      intro k
      obtain ⟨hq, hk, _⟩ := hrej k
      rw [hq]
      exact tryAttempt_rejected_in_time _ _ _ (Nat.le_of_lt hk)
    rw [optimizedQuery_all_fail queryFn d f r errs hfail]
    have hnf := (hrej r).2.2
    have hlike : isErrorLike (errs r) = true := by
      simp only [isNotFoundError, Bool.and_eq_true] at hnf
      exact hnf.1.1
    rw [handleSupabaseError_eq _ _ hlike, classifiedMessage_notFound _ hnf]
  · apply optimizedQuery_first_ok
    rw [hres]
    exact tryAttempt_in_time t d _ data e (Nat.le_of_lt ht) rfl rfl

/-- Witness for the amended C2: the two "no row found" operations with two retries. -/
theorem optimizedQuery_not_found_is_retried_witness :
    optimizedQuery rejectsNotFound { timeout := 5000, fallbackData := JSVal.null, retries := 2 }
      = ⟨Except.ok (mkResult JSVal.null (JSVal.str "No data found.")), 3, [1000, 1000]⟩ ∧
    optimizedQuery resolvesNotFound { timeout := 5000, fallbackData := JSVal.null, retries := 2 }
      = ⟨Except.ok (mkResult JSVal.null notFoundError), 1, []⟩ :=
  optimizedQuery_not_found_is_retried rejectsNotFound resolvesNotFound 5000 JSVal.null 2
    (fun _ => 10) (fun _ => notFoundError) 10 JSVal.null notFoundError
    (fun _ => ⟨rfl, by simp, rfl⟩) rfl (by decide)

/-- Counterexample to C3: when the operation resolves with a result whose `error` is the
backend's error object, `optimizedQuery` resolves with that object as `error`: it is neither
absent nor a message string. -/
theorem optimizedQuery_raw_error_counterexample :
    (optimizedQuery resolvesNotFound {}).outcome
      = Except.ok (mkResult JSVal.null notFoundError) ∧
    isNullish notFoundError = false ∧ isString notFoundError = false :=
  ⟨rfl, rfl, rfl⟩

/-- Claim C3, amended: for every options object with `retries ≥ 0` and every behaviour of the
operation (resolving with any value, rejecting or throwing with an error-like reason, or never
settling), `optimizedQuery` resolves to a `{ data, error }` object whose `error` is either a
message string or the `error` field, passed through unchanged, of a result with which an
invocation resolved by the deadline. -/
theorem optimizedQuery_resolves_shaped (queryFn : Nat → Invocation) (options : QueryOptions)
    (hretries : 0 ≤ options.retries) (hok : ∀ k, failureReasonOK (queryFn k) = true) :
    ∃ data error,
      (optimizedQuery queryFn options).outcome = Except.ok (mkResult data error) ∧
      (isString error = true ∨
        ∃ k t v, queryFn k = Invocation.returns (some (t, Settlement.fulfilled v)) ∧
          t ≤ options.timeout ∧ getProp v "error" = Except.ok error) := by
  obtain ⟨r, hr⟩ := Int.eq_ofNat_of_zero_le hretries
  have h := attemptLoop_shape queryFn options.timeout options.fallbackData options.retries hok
    r 0 0 [] (by rw [hr]; simp)
  have hfuel : (options.retries + 1).toNat = r + 1 := by rw [hr]; exact toNat_retries_succ r
  simpa [optimizedQuery, hfuel] using h

/-- Witness for the amended C3: the operation rejecting with the "no row found" error, under
the default options. -/
theorem optimizedQuery_resolves_shaped_witness :
    ∃ data error,
      (optimizedQuery rejectsNotFound {}).outcome = Except.ok (mkResult data error) ∧
      (isString error = true ∨
        ∃ k t v, rejectsNotFound k = Invocation.returns (some (t, Settlement.fulfilled v)) ∧
          t ≤ ({} : QueryOptions).timeout ∧ getProp v "error" = Except.ok error) :=
  optimizedQuery_resolves_shaped rejectsNotFound {} (by decide) (fun _ => rfl)

/-- Counterexample to C5: an operation that resolves at once with `undefined`, under one
retry and the fallback `"FALLBACK"`.  Reading `result.data` throws inside the `try`, so the
attempt counts as failed: the operation is invoked twice and the fallback is returned. -/
theorem optimizedQuery_undefined_result_counterexample :
    (optimizedQuery resolvesUndefined
        { timeout := 5000, fallbackData := JSVal.str "FALLBACK", retries := 1 }).calls = 2 ∧
    (optimizedQuery resolvesUndefined
        { timeout := 5000, fallbackData := JSVal.str "FALLBACK", retries := 1 }).outcome
      = Except.ok (mkResult (JSVal.str "FALLBACK")
          (JSVal.str "Cannot read properties of undefined (reading \x27data\x27)")) :=
  ⟨by decide, rfl⟩

/-- Claim C5, amended: if the first invocation of the operation resolves before the deadline
with a result `v` other than `undefined` and `null`, `optimizedQuery` returns
`{ data: v.data, error: v.error }`, having invoked the operation once and waited for no
backoff; the fallback value plays no part. -/
theorem optimizedQuery_returns_first_result (queryFn : Nat → Invocation) (d : Nat) (f : JSVal)
    (r t : Nat) (v : JSVal)
    (hfirst : queryFn 0 = Invocation.returns (some (t, Settlement.fulfilled v)))
    (hbefore : t < d) (hv : isNullish v = false) :
    ∃ data error, getProp v "data" = Except.ok data ∧ getProp v "error" = Except.ok error ∧
      optimizedQuery queryFn { timeout := d, fallbackData := f, retries := (r : Int) }
        = ⟨Except.ok (mkResult data error), 1, []⟩ := by
  obtain ⟨data, hd⟩ := getProp_ok_of_not_nullish v "data" hv
  obtain ⟨error, he⟩ := getProp_ok_of_not_nullish v "error" hv
  refine ⟨data, error, hd, he, ?_⟩
  apply optimizedQuery_first_ok
  rw [hfirst]
  exact tryAttempt_in_time t d v data error (Nat.le_of_lt hbefore) hd he

/-- Witness for the amended C5: a result object delivered after 20 ms against a 5000 ms
deadline. -/
theorem optimizedQuery_returns_first_result_witness :
    ∃ data error,
      getProp (mkResult (JSVal.str "rows") JSVal.null) "data" = Except.ok data ∧
      getProp (mkResult (JSVal.str "rows") JSVal.null) "error" = Except.ok error ∧
      optimizedQuery promptOperation
          { timeout := 5000, fallbackData := JSVal.num 0, retries := 1 }
        = ⟨Except.ok (mkResult data error), 1, []⟩ :=
  optimizedQuery_returns_first_result promptOperation 5000 (JSVal.num 0) 1 20
    (mkResult (JSVal.str "rows") JSVal.null) rfl (by decide) rfl

theorem collectSettled_some {α : Type} :
    ∀ (qs : List (JSPromise α)) (xs : List (Nat × Settlement α)),
      collectSettled qs = some xs → qs = xs.map some := by
  intro qs
  induction qs with
  | nil =>
    intro xs h
    simp [collectSettled] at h
    subst h
    rfl
  | cons q rest ih =>
    intro xs h
    cases q with
    | none => simp [collectSettled] at h
    | some x =>
      cases hr : collectSettled rest with
      | none => simp [collectSettled, hr] at h
      | some ys =>
        simp [collectSettled, hr] at h
        subst h
        simp [← ih ys hr]

theorem collectSettled_map_some {α : Type} (xs : List (Nat × Settlement α)) :
    collectSettled (xs.map some) = some xs := by
  induction xs with
  | nil => rfl
  | cons x rest ih => simp [collectSettled, ih]

theorem le_foldr_max (ts : List Nat) (t : Nat) (h : t ∈ ts) : t ≤ ts.foldr max 0 := by
  induction ts with
  | nil => simp at h
  | cons u rest ih =>
    simp only [List.foldr_cons]
    rcases List.mem_cons.mp h with h1 | h1
    · subst h1
      exact Nat.le_max_left _ _
    · exact Nat.le_trans (ih h1) (Nat.le_max_right _ _)

theorem getProp_message_error (v e : JSVal) (h : getProp v "message" = Except.error e) :
    ∃ s, s ∈ batchFailureMessages ∧ e = mkError s := by
  cases v <;> simp [getProp] at h
  · exact ⟨_, by simp [batchFailureMessages], h.symm⟩
  · exact ⟨_, by simp [batchFailureMessages], h.symm⟩

theorem mapPayloads_error (rs : List (Settlement JSVal)) (e : JSVal)
    (h : mapPayloads rs = Except.error e) : ∃ s, s ∈ batchFailureMessages ∧ e = mkError s := by
  induction rs with
  | nil => simp [mapPayloads] at h
  | cons r rest ih =>
    cases hp : settledToPayload r with
    | error x =>
      simp [mapPayloads, hp] at h
      subst h
      cases r with
      | fulfilled v => simp [settledToPayload] at hp
      | rejected reason =>
        cases hm : getProp reason "message" with
        | error y =>
          simp [settledToPayload, hm] at hp
          subst hp
          exact getProp_message_error _ _ hm
        | ok m => simp [settledToPayload, hm] at hp
    | ok p =>
      cases hrest : mapPayloads rest with
      | error x =>
        simp [mapPayloads, hp, hrest] at h
        subst h
        exact ih hrest
      | ok ps => simp [mapPayloads, hp, hrest] at h

theorem mapPayloads_ok :
    ∀ (rs : List (Settlement JSVal)) (ps : List JSVal), mapPayloads rs = Except.ok ps →
      ps.length = rs.length ∧
      ∀ (i : Nat) (r : Settlement JSVal), rs[i]? = some r →
        ∃ p, ps[i]? = some p ∧ settledToPayload r = Except.ok p := by
  intro rs
  induction rs with
  | nil =>
    intro ps h
    simp [mapPayloads] at h
    subst h
    simp
  | cons r rest ih =>
    intro ps h
    cases hp : settledToPayload r with
    | error x => simp [mapPayloads, hp] at h
    | ok p =>
      cases hrest : mapPayloads rest with
      | error x => simp [mapPayloads, hp, hrest] at h
      | ok qs =>
        simp [mapPayloads, hp, hrest] at h
        subst h
        obtain ⟨hlen, hidx⟩ := ih qs hrest
        refine ⟨by simp [hlen], ?_⟩
        intro i r2 hi
        cases i with
        | zero =>
          simp at hi
          subst hi
          exact ⟨p, by simp, hp⟩
        | succ j =>
          simp at hi
          obtain ⟨p2, h1, h2⟩ := hidx j r2 hi
          exact ⟨p2, by simpa using h1, h2⟩

theorem batchCatch_mkError {α : Type} (queries : List α) (s : String) :
    batchCatch queries (mkError s)
      = Except.ok (List.replicate queries.length (mkResult JSVal.null (JSVal.str s))) := by
  cases queries with
  | nil => rfl
  | cons q rest =>
    simp [batchCatch, getProp, mkError, lookupField, List.replicate_succ]

/-- The two ways a call of `batchQueries` can end: with the uniform failure array produced by
the `catch` block, or, every promise having settled by the deadline, with the array of the
payloads computed position by position. -/
theorem batchQueries_cases (queries : List (JSPromise JSVal)) (timeout : Nat) :
    (∃ s, s ∈ batchFailureMessages ∧ batchQueries queries timeout
        = Except.ok (List.replicate queries.length (mkResult JSVal.null (JSVal.str s)))) ∨
    (∃ (settled : List (Nat × Settlement JSVal)) (payloads : List JSVal),
        queries = settled.map some ∧
        (∀ x ∈ settled, x.1 ≤ timeout) ∧
        batchQueries queries timeout = Except.ok payloads ∧
        mapPayloads (settled.map Prod.snd) = Except.ok payloads) := by
  cases hc : collectSettled queries with
  | none =>
    left
    refine ⟨"Batch queries timeout", by simp [batchFailureMessages], ?_⟩
    simp [batchQueries, allSettled, hc, withTimeout, batchCatch_mkError]
  | some settled =>
    by_cases ht : (settled.map Prod.fst).foldr max 0 ≤ timeout
    · cases hm : mapPayloads (settled.map Prod.snd) with
      | error e =>
        left
        obtain ⟨s, hmem, hs⟩ := mapPayloads_error _ _ hm
        refine ⟨s, hmem, ?_⟩
        simp [batchQueries, allSettled, hc, withTimeout, ht, hm, hs, batchCatch_mkError]
      | ok payloads =>
        right
        refine ⟨settled, payloads, collectSettled_some _ _ hc, ?_, ?_, hm⟩
        · intro x hx
          exact Nat.le_trans (le_foldr_max _ _ (List.mem_map_of_mem Prod.fst hx)) ht
        · simp [batchQueries, allSettled, hc, withTimeout, ht, hm]
    · left
      refine ⟨"Batch queries timeout", by simp [batchFailureMessages], ?_⟩
      simp [batchQueries, allSettled, hc, withTimeout, ht, batchCatch_mkError]

/-- Counterexample to C6: for a promise rejected with the plain string `"plain"`, the payload
built at line 61 is `{ data: null, error: undefined }`, since a string has no `message`: the
position is kept, but what failed is no longer reported in it. -/
theorem batchQueries_plain_reason_counterexample :
    batchQueries batchWithPlainReason 8000
      = Except.ok [mkResult JSVal.null JSVal.undefined] :=
  rfl

/-- Claim C6, amended: for every sequence of promises and every deadline, `batchQueries`
resolves to a sequence of the same length as its input, whatever mix of promises fulfil,
reject (with any reason) or never settle.  At every position whose promise did not fulfil,
the result is a failure payload `{ data: null, error: m }` where `m` is either the message
string of the error that reached the `catch` block or the `message` read from that promise's
own rejection reason, which is `undefined` when the reason carries none. -/
theorem batchQueries_length_preserved (queries : List (JSPromise JSVal)) (timeout : Nat) :
    ∃ out, batchQueries queries timeout = Except.ok out ∧ out.length = queries.length ∧
      ∀ (i : Nat) (q : JSPromise JSVal), queries[i]? = some q →
        (∀ t v, q ≠ some (t, Settlement.fulfilled v)) →
        (∃ s, s ∈ batchFailureMessages ∧ out[i]? = some (mkResult JSVal.null (JSVal.str s))) ∨
        (∃ t reason m, q = some (t, Settlement.rejected reason) ∧
          getProp reason "message" = Except.ok m ∧
          out[i]? = some (mkResult JSVal.null m)) := by
  rcases batchQueries_cases queries timeout with
    ⟨s, hmem, hs⟩ | ⟨settled, payloads, hq, _, hb, hm⟩
  · refine ⟨_, hs, by simp, ?_⟩
    intro i q hi _
    have hlt : i < queries.length := by
      by_contra hge
      have : queries[i]? = none := List.getElem?_eq_none (Nat.le_of_not_lt hge)
      rw [this] at hi
      cases hi
    exact Or.inl ⟨s, hmem, by simp [List.getElem?_replicate, hlt]⟩
  · obtain ⟨hlen, hidx⟩ := mapPayloads_ok _ _ hm
    refine ⟨payloads, hb, by simp [hlen, hq], ?_⟩
    intro i q hi hnot
    rw [hq, List.getElem?_map] at hi
    cases hx : settled[i]? with
    | none => simp [hx] at hi
    | some x =>
      simp [hx] at hi
      obtain ⟨t, st⟩ := x
      have hr : (settled.map Prod.snd)[i]? = some st := by simp [List.getElem?_map, hx]
      obtain ⟨p, hp, hpay⟩ := hidx i st hr
      cases st with
      | fulfilled v => exact absurd hi.symm (hnot t v)
      | rejected reason =>
        cases hmsg : getProp reason "message" with
        | error y => simp [settledToPayload, hmsg] at hpay
        | ok m =>
          simp [settledToPayload, hmsg] at hpay
          exact Or.inr ⟨t, reason, m, hi.symm, hmsg, by rw [hp, hpay]⟩

theorem foldr_max_le (ts : List Nat) (b : Nat) (h : ∀ t ∈ ts, t ≤ b) : ts.foldr max 0 ≤ b := by
  induction ts with
  | nil => simp
  | cons u rest ih =>
    simp only [List.foldr_cons]
    exact Nat.max_le.mpr ⟨h u (by simp), ih (fun t ht => h t (by simp [ht]))⟩

theorem mapPayloads_total (rs : List (Settlement JSVal))
    (h : ∀ r ∈ rs, ∀ reason, r = Settlement.rejected reason → isNullish reason = false) :
    ∃ ps, mapPayloads rs = Except.ok ps := by
  induction rs with
  | nil => exact ⟨[], rfl⟩
  | cons r rest ih =>
    obtain ⟨ps, hps⟩ := ih (fun r2 hr2 => h r2 (by simp [hr2]))
    cases r with
    | fulfilled v => exact ⟨v :: ps, by simp [mapPayloads, settledToPayload, hps]⟩
    | rejected reason =>
      obtain ⟨m, hm⟩ := getProp_ok_of_not_nullish reason "message" (h _ (by simp) reason rfl)
      exact ⟨mkResult JSVal.null m :: ps, by simp [mapPayloads, settledToPayload, hps, hm]⟩

/-- The position-by-position answer of `batchQueries`, where it holds: when every promise of
the batch settles before the deadline and no rejection reason is `undefined` or `null`, the
result has the input's length and holds at each position `i` the outcome of input `i`: its
fulfilled value, or `{ data: null, error: reason.message }` built from its own rejection
reason. -/
theorem batchQueries_positionwise (settled : List (Nat × Settlement JSVal)) (timeout : Nat)
    (hin : ∀ x ∈ settled, x.1 < timeout)
    (hreason : ∀ x ∈ settled, ∀ reason, x.2 = Settlement.rejected reason →
      isNullish reason = false) :
    ∃ out, batchQueries (settled.map some) timeout = Except.ok out ∧
      out.length = settled.length ∧
      (∀ (i t : Nat) (v : JSVal), settled[i]? = some (t, Settlement.fulfilled v) →
        out[i]? = some v) ∧
      (∀ (i t : Nat) (reason : JSVal), settled[i]? = some (t, Settlement.rejected reason) →
        ∃ m, getProp reason "message" = Except.ok m ∧
          out[i]? = some (mkResult JSVal.null m)) := by
  have hmax : (settled.map Prod.fst).foldr max 0 ≤ timeout := by
    apply foldr_max_le
    intro t ht
    obtain ⟨x, hx, hxt⟩ := List.mem_map.mp ht
    rw [← hxt]
    exact Nat.le_of_lt (hin x hx)
  obtain ⟨out, hout⟩ := mapPayloads_total (settled.map Prod.snd) (by
    intro r hr reason hrr
    obtain ⟨x, hx, hxr⟩ := List.mem_map.mp hr
    exact hreason x hx reason (by rw [hxr, hrr]))
  obtain ⟨hlen, hidx⟩ := mapPayloads_ok _ _ hout
  refine ⟨out, ?_, by simpa using hlen, ?_, ?_⟩
  · simp [batchQueries, allSettled, collectSettled_map_some, withTimeout, hmax, hout]
  · intro i t v hi
    obtain ⟨p, hp, hpay⟩ := hidx i (Settlement.fulfilled v) (by simp [List.getElem?_map, hi])
    simp [settledToPayload] at hpay
    rw [hp, hpay]
  · intro i t reason hi
    obtain ⟨p, hp, hpay⟩ := hidx i (Settlement.rejected reason) (by simp [List.getElem?_map, hi])
    cases hm : getProp reason "message" with
    | error y => simp [settledToPayload, hm] at hpay
    | ok m =>
      simp [settledToPayload, hm] at hpay
      exact ⟨m, rfl, by rw [hp, hpay]⟩

/-- The position-by-position answer on three promises settling within 8000 ms, the middle
one rejecting with `new Error('boom')`. -/
theorem batchQueries_positionwise_witness :
    ∃ out, batchQueries (batchOneFailure.map some) 8000 = Except.ok out ∧
      out.length = batchOneFailure.length ∧
      (∀ (i t : Nat) (v : JSVal), batchOneFailure[i]? = some (t, Settlement.fulfilled v) →
        out[i]? = some v) ∧
      (∀ (i t : Nat) (reason : JSVal),
        batchOneFailure[i]? = some (t, Settlement.rejected reason) →
        ∃ m, getProp reason "message" = Except.ok m ∧
          out[i]? = some (mkResult JSVal.null m)) :=
  batchQueries_positionwise batchOneFailure 8000
    (by simp [batchOneFailure]) (by simp [batchOneFailure, mkError, isNullish])

/-- Claim C7, the code at the failing input: both promises settle at once, well before the
deadline, the first fulfilled with a result and the second rejected without a reason.
Reading `result.reason.message` at line 61 throws inside `results.map`, the `catch` block
takes over, and every position, the fulfilled one included, carries the message of that
`TypeError`: the failure of the second operation has overwritten the outcome of the first. -/
theorem batchQueries_bare_rejection_spreads :
    batchQueries batchWithBareRejection 8000
      = Except.ok
          [mkResult JSVal.null
             (JSVal.str "Cannot read properties of undefined (reading \x27message\x27)"),
           mkResult JSVal.null
             (JSVal.str "Cannot read properties of undefined (reading \x27message\x27)")] :=
  rfl

/-- Claim C8: if the deadline elapses before every promise of the batch has settled (one of
them settles later than the deadline, or never), `batchQueries` returns as many results as
there are inputs, each `{ data: null, error: 'Batch queries timeout' }`, also at the positions
whose promises had fulfilled before the deadline. -/
theorem batchQueries_deadline_uniform (queries : List (JSPromise JSVal)) (timeout : Nat)
    (hlate : ∃ q ∈ queries, q = none ∨ ∃ t s, q = some (t, s) ∧ timeout < t) :
    batchQueries queries timeout
      = Except.ok (List.replicate queries.length
          (mkResult JSVal.null (JSVal.str "Batch queries timeout"))) := by
  cases hc : collectSettled queries with
  | none => simp [batchQueries, allSettled, hc, withTimeout, batchCatch_mkError]
  | some settled =>
    have hq := collectSettled_some _ _ hc
    obtain ⟨q, hmem, hcase⟩ := hlate
    rw [hq] at hmem
    obtain ⟨x, hx, hxq⟩ := List.mem_map.mp hmem
    have hgt : timeout < x.1 := by
      rcases hcase with hnone | ⟨t, s, hts, hlt⟩
      · rw [hnone] at hxq
        cases hxq
      · rw [hts] at hxq
        cases hxq
        exact hlt
    have hmax : x.1 ≤ (settled.map Prod.fst).foldr max 0 :=
      le_foldr_max _ _ (List.mem_map_of_mem Prod.fst hx)
    have ht : ¬ (settled.map Prod.fst).foldr max 0 ≤ timeout := by omega
    simp [batchQueries, allSettled, hc, withTimeout, ht, batchCatch_mkError]

/-- Witness for C8: a promise fulfilled after 10 ms next to one that never settles, under a
deadline of 100 ms. -/
theorem batchQueries_deadline_uniform_witness :
    batchQueries batchWithPending 100
      = Except.ok (List.replicate batchWithPending.length
          (mkResult JSVal.null (JSVal.str "Batch queries timeout"))) :=
  batchQueries_deadline_uniform batchWithPending 100
    ⟨none, by simp [batchWithPending], Or.inl rfl⟩

theorem cacheGet_cacheSet_same (cache : QueryCache) (k : String) (entry : CacheEntry) :
    cacheGet (cacheSet cache k entry) k = some entry := by
  induction cache with
  | nil => simp [cacheSet, cacheGet]
  | cons p rest ih =>
    obtain ⟨k2, e2⟩ := p
    by_cases h : k2 = k
    · simp [cacheSet, cacheGet, h]
    · simp [cacheSet, cacheGet, h, ih]

theorem cacheGet_cacheSet_other (cache : QueryCache) (k k2 : String) (entry : CacheEntry)
    (hne : k2 ≠ k) : cacheGet (cacheSet cache k entry) k2 = cacheGet cache k2 := by
  induction cache with
  | nil => simp [cacheSet, cacheGet, Ne.symm hne]
  | cons p rest ih =>
    obtain ⟨k3, e3⟩ := p
    by_cases h : k3 = k
    · subst h
      simp [cacheSet, cacheGet, Ne.symm hne]
    · by_cases h2 : k3 = k2
      · subst h2
        simp [cacheSet, cacheGet, h]
      · simp [cacheSet, cacheGet, h, h2, ih]

theorem mem_cacheKeys_cacheSet (cache : QueryCache) (k k2 : String) (entry : CacheEntry) :
    k2 ∈ cacheKeys (cacheSet cache k entry) ↔ k2 = k ∨ k2 ∈ cacheKeys cache := by
  induction cache with
  | nil => simp [cacheSet, cacheKeys]
  | cons p rest ih =>
    obtain ⟨k3, e3⟩ := p
    by_cases h : k3 = k
    · subst h
      simp [cacheSet, cacheKeys]
    · have ih2 : k2 ∈ List.map Prod.fst (cacheSet rest k entry)
          ↔ k2 = k ∨ k2 ∈ List.map Prod.fst rest := ih
      simp only [cacheSet, h, if_false, cacheKeys, List.map_cons, List.mem_cons, ih2]
      tauto

theorem cacheSet_nodup (cache : QueryCache) (k : String) (entry : CacheEntry)
    (h : (cacheKeys cache).Nodup) : (cacheKeys (cacheSet cache k entry)).Nodup := by
  induction cache with
  | nil => simp [cacheSet, cacheKeys]
  | cons p rest ih =>
    obtain ⟨k3, e3⟩ := p
    have hcons : k3 ∉ cacheKeys rest ∧ (cacheKeys rest).Nodup := by
      simpa [cacheKeys] using h
    by_cases hk : k3 = k
    · subst hk
      simpa [cacheSet, cacheKeys] using h
    · have hnot : k3 ∉ cacheKeys (cacheSet rest k entry) := by
        rw [mem_cacheKeys_cacheSet]
        tauto
      have hrest := ih hcons.2
      simp only [cacheSet, hk, if_false]
      exact List.nodup_cons.mpr ⟨hnot, hrest⟩

/-- Claim C9: in a cache with at most one entry per key, after storing `v` under `k` at time
`now`, reading `k` returns the entry `{ data: v, timestamp: now }`; the cache still has at most
one entry per key; the entries under other keys read as before; and after a further store
under `k` at a time `later ≥ now`, the entry read has the new value and a timestamp not
smaller than `now`. -/
theorem cacheStore_then_get (cache : QueryCache) (k : String) (v : JSVal) (now : Int)
    (hkeys : (cacheKeys cache).Nodup) :
    cacheGet (cacheStore cache k v now) k = some { data := v, timestamp := now } ∧
    (cacheKeys (cacheStore cache k v now)).Nodup ∧
    (∀ k2, k2 ≠ k → cacheGet (cacheStore cache k v now) k2 = cacheGet cache k2) ∧
    (∀ (v2 : JSVal) (later : Int), now ≤ later →
      ∃ e, cacheGet (cacheStore (cacheStore cache k v now) k v2 later) k = some e ∧
        e.data = v2 ∧ now ≤ e.timestamp) := by
  refine ⟨cacheGet_cacheSet_same _ _ _, cacheSet_nodup _ _ _ hkeys, ?_, ?_⟩
  · intro k2 hne
    exact cacheGet_cacheSet_other _ _ _ _ hne
  · intro v2 later hle
    exact ⟨_, cacheGet_cacheSet_same _ _ _, rfl, hle⟩

/-- Witness for C9: a store under `loc1` at time 9 into the one-entry cache. -/
theorem cacheStore_then_get_witness :
    cacheGet (cacheStore cacheWithLoc1 "loc1" (JSVal.str "Y") 9) "loc1"
        = some { data := JSVal.str "Y", timestamp := 9 } ∧
    (cacheKeys (cacheStore cacheWithLoc1 "loc1" (JSVal.str "Y") 9)).Nodup ∧
    (∀ k2, k2 ≠ "loc1" →
      cacheGet (cacheStore cacheWithLoc1 "loc1" (JSVal.str "Y") 9) k2
        = cacheGet cacheWithLoc1 k2) ∧
    (∀ (v2 : JSVal) (later : Int), 9 ≤ later →
      ∃ e, cacheGet (cacheStore (cacheStore cacheWithLoc1 "loc1" (JSVal.str "Y") 9)
          "loc1" v2 later) "loc1" = some e ∧ e.data = v2 ∧ 9 ≤ e.timestamp) :=
  cacheStore_then_get cacheWithLoc1 "loc1" (JSVal.str "Y") 9 (by simp [cacheKeys, cacheWithLoc1])

theorem fetchRequest_calls (queryKey : String) (queryFn : Invocation) (timeout : Nat)
    (nowStore : Int) (cache : QueryCache) (state : HookState) :
    (fetchRequest queryKey queryFn timeout nowStore cache state).calls = 1 := by
  unfold fetchRequest
  cases raceOperation queryFn timeout with
  | fulfilled result => rfl
  | rejected err => cases cacheGet cache queryKey <;> rfl

/-- Counterexample to C10: with the default time-to-live, an entry stored at time 0 and a
fetch at time 300000 (so that `now - storedAt = ttl`), the operation is invoked: the entry at
the boundary is not served as fresh. -/
theorem fetchData_boundary_counterexample :
    (fetchData "loc1" (Invocation.returns none) true 5000 CACHE_DURATION 300000 300000
        cacheWithLoc1 initialHookState).calls = 1 ∧
    (300000 : Int) - 0 ≤ CACHE_DURATION := by
  constructor <;> decide

/-- Claim C10, amended: when the hook is enabled and the cache has an entry for the key, the
entry is served as fresh (its data exposed, the operation not invoked) if and only if
`now - storedAt < ttl`; otherwise, the boundary `now - storedAt = ttl` included, the operation
is invoked once. -/
theorem fetchData_fresh_iff (queryKey : String) (queryFn : Invocation) (timeout : Nat)
    (cacheTime nowCheck nowStore : Int) (cache : QueryCache) (state : HookState)
    (entry : CacheEntry) (hentry : cacheGet cache queryKey = some entry) :
    ((fetchData queryKey queryFn true timeout cacheTime nowCheck nowStore cache state).calls = 0
        ↔ nowCheck - entry.timestamp < cacheTime) ∧
    (nowCheck - entry.timestamp < cacheTime →
      (fetchData queryKey queryFn true timeout cacheTime nowCheck nowStore cache state).state.data
        = entry.data) ∧
    (¬ nowCheck - entry.timestamp < cacheTime →
      (fetchData queryKey queryFn true timeout cacheTime nowCheck nowStore cache state).calls = 1)
    := by
  by_cases h : nowCheck - entry.timestamp < cacheTime
  · simp [fetchData, hentry, h]
  · simp [fetchData, hentry, h, fetchRequest_calls]

/-- Witness for the amended C10: the entry stored at time 0, read at time 299999. -/
theorem fetchData_fresh_iff_witness :
    ((fetchData "loc1" (Invocation.returns none) true 5000 CACHE_DURATION 299999 300001
          cacheWithLoc1 initialHookState).calls = 0
        ↔ (299999 : Int) - 0 < CACHE_DURATION) ∧
    ((299999 : Int) - 0 < CACHE_DURATION →
      (fetchData "loc1" (Invocation.returns none) true 5000 CACHE_DURATION 299999 300001
          cacheWithLoc1 initialHookState).state.data = JSVal.str "X") ∧
    (¬ (299999 : Int) - 0 < CACHE_DURATION →
      (fetchData "loc1" (Invocation.returns none) true 5000 CACHE_DURATION 299999 300001
          cacheWithLoc1 initialHookState).calls = 1) :=
  fetchData_fresh_iff "loc1" (Invocation.returns none) 5000 CACHE_DURATION 299999 300001
    cacheWithLoc1 initialHookState { data := JSVal.str "X", timestamp := 0 } rfl

/-! ## The data-fetch lifecycle and the session controller -/

theorem CACHE_DURATION_eq : CACHE_DURATION = 300000 := by
  decide

theorem raceOperation_throws (reason : JSVal) (timeout : Nat) :
    raceOperation (Invocation.throws reason) timeout = Settlement.rejected reason := rfl

theorem raceOperation_rejected_in_time (t timeout : Nat) (reason : JSVal) (ht : t < timeout) :
    raceOperation (Invocation.returns (some (t, Settlement.rejected reason))) timeout
      = Settlement.rejected reason := by
  simp [raceOperation, raceTimerFirst, ht]

theorem raceOperation_fulfilled_in_time (t timeout : Nat) (r : JSVal) (ht : t < timeout) :
    raceOperation (Invocation.returns (some (t, Settlement.fulfilled r))) timeout
      = Settlement.fulfilled r := by
  simp [raceOperation, raceTimerFirst, ht]

theorem raceOperation_late (queryFn : Invocation) (timeout : Nat)
    (h : settlesAfter queryFn timeout) :
    raceOperation queryFn timeout = Settlement.rejected (mkError "Request timeout") := by
  match queryFn, h with
  | Invocation.returns none, _ => rfl
  | Invocation.returns (some (t, s)), h =>
    have ht : ¬ t < timeout := by
      have hlt : timeout < t := by simpa [settlesAfter] using h
      omega
    simp [raceOperation, raceTimerFirst, ht]

theorem fetchRequest_fulfilled (queryKey : String) (queryFn : Invocation) (timeout : Nat)
    (nowStore : Int) (cache : QueryCache) (state : HookState) (r : JSVal)
    (h : raceOperation queryFn timeout = Settlement.fulfilled r) :
    fetchRequest queryKey queryFn timeout nowStore cache state
      = { state := { state with data := r, loading := false },
          cache := cacheStore cache queryKey r nowStore, calls := 1 } := by
  simp [fetchRequest, h]

theorem fetchRequest_rejected_cached (queryKey : String) (queryFn : Invocation) (timeout : Nat)
    (nowStore : Int) (cache : QueryCache) (state : HookState) (err : JSVal)
    (entry : CacheEntry) (h : raceOperation queryFn timeout = Settlement.rejected err)
    (hentry : cacheGet cache queryKey = some entry) :
    fetchRequest queryKey queryFn timeout nowStore cache state
      = { state := { data := entry.data, loading := false, error := err },
          cache := cache, calls := 1 } := by
  simp [fetchRequest, h, hentry]

theorem fetchRequest_rejected_error (queryKey : String) (queryFn : Invocation) (timeout : Nat)
    (nowStore : Int) (cache : QueryCache) (state : HookState) (err : JSVal)
    (h : raceOperation queryFn timeout = Settlement.rejected err) :
    (fetchRequest queryKey queryFn timeout nowStore cache state).state.error = err ∧
    (fetchRequest queryKey queryFn timeout nowStore cache state).state.loading = false ∧
    (fetchRequest queryKey queryFn timeout nowStore cache state).cache = cache := by
  cases hc : cacheGet cache queryKey <;> simp [fetchRequest, h, hc]

theorem fetchData_stale (queryKey : String) (queryFn : Invocation) (timeout : Nat)
    (cacheTime nowCheck nowStore : Int) (cache : QueryCache) (state : HookState)
    (hstale : ∀ entry, cacheGet cache queryKey = some entry →
      ¬ nowCheck - entry.timestamp < cacheTime) :
    fetchData queryKey queryFn true timeout cacheTime nowCheck nowStore cache state
      = fetchRequest queryKey queryFn timeout nowStore cache
          { state with loading := true, error := JSVal.null } := by
  cases hc : cacheGet cache queryKey with
  | none => simp [fetchData, hc]
  | some entry => simp [fetchData, hc, hstale entry hc]

/-- Claim C11: with the default time-to-live of 5 minutes (300000 ms), an entry stored at
time 0 is served as fresh by a fetch at 4 min 59 s (299000 ms): the cached value is exposed
and the operation is not invoked; a fetch at 5 min 1 s (301000 ms) finds it stale and invokes
the operation. -/
theorem fetchData_five_minute_scenario (cache : QueryCache) (queryKey : String) (x : JSVal)
    (queryFn : Invocation) (timeout : Nat) (nowStore : Int) (state : HookState) :
    CACHE_DURATION = 300000 ∧
    fetchData queryKey queryFn true timeout CACHE_DURATION 299000 nowStore
        (cacheStore cache queryKey x 0) state
      = { state := { data := x, loading := false, error := JSVal.null },
          cache := cacheStore cache queryKey x 0, calls := 0 } ∧
    (fetchData queryKey queryFn true timeout CACHE_DURATION 301000 nowStore
        (cacheStore cache queryKey x 0) state).calls = 1 := by
  have hget : cacheGet (cacheStore cache queryKey x 0) queryKey
      = some { data := x, timestamp := 0 } := cacheGet_cacheSet_same _ _ _
  refine ⟨CACHE_DURATION_eq, ?_, ?_⟩
  · simp [fetchData, hget, CACHE_DURATION_eq]
  · simp [fetchData, hget, CACHE_DURATION_eq, fetchRequest_calls]

/-- Claim C12: when the hook is enabled and the cache holds a fresh entry for the key, one
run of `fetchData` ends with data equal to the cached value, error cleared (`null`) and
loading false, without invoking the operation and without modifying the cache. -/
theorem fetchData_fresh_entry_served (queryKey : String) (queryFn : Invocation) (timeout : Nat)
    (cacheTime nowCheck nowStore : Int) (cache : QueryCache) (state : HookState)
    (entry : CacheEntry) (hentry : cacheGet cache queryKey = some entry)
    (hfresh : nowCheck - entry.timestamp < cacheTime) :
    fetchData queryKey queryFn true timeout cacheTime nowCheck nowStore cache state
      = { state := { data := entry.data, loading := false, error := JSVal.null },
          cache := cache, calls := 0 } := by
  simp [fetchData, hentry, hfresh]

/-- Claim C13, the code at the failing input: with `enabled = false` a run of `fetchData`
from the initial state cells invokes nothing and touches neither the cache nor the state
cells, so `loading`, which starts as `true`, is left `true`: the disabled hook is exposed as
loading. -/
theorem fetchData_disabled_stays_loading (queryKey : String) (queryFn : Invocation)
    (timeout : Nat) (cacheTime nowCheck nowStore : Int) (cache : QueryCache) :
    fetchData queryKey queryFn false timeout cacheTime nowCheck nowStore cache initialHookState
      = { state := initialHookState, cache := cache, calls := 0 } ∧
    initialHookState.loading = true :=
  ⟨rfl, rfl⟩

/-- Claim C14: when the hook is enabled, the cache has no fresh entry for the key and the
operation resolves with `r` before the deadline, the run stores `{ data: r, timestamp: now }`
under the key and ends with data `r`, error `null` and loading false, the operation having
been invoked once. -/
theorem fetchData_success_stores (queryKey : String) (queryFn : Invocation) (timeout : Nat)
    (cacheTime nowCheck nowStore : Int) (cache : QueryCache) (state : HookState) (t : Nat)
    (r : JSVal)
    (hstale : ∀ entry, cacheGet cache queryKey = some entry →
      ¬ nowCheck - entry.timestamp < cacheTime)
    (hq : queryFn = Invocation.returns (some (t, Settlement.fulfilled r))) (ht : t < timeout) :
    fetchData queryKey queryFn true timeout cacheTime nowCheck nowStore cache state
      = { state := { data := r, loading := false, error := JSVal.null },
          cache := cacheStore cache queryKey r nowStore, calls := 1 } ∧
    cacheGet (cacheStore cache queryKey r nowStore) queryKey
      = some { data := r, timestamp := nowStore } := by
  refine ⟨?_, cacheGet_cacheSet_same _ _ _⟩
  rw [fetchData_stale _ _ _ _ _ _ _ _ hstale]
  rw [fetchRequest_fulfilled _ _ _ _ _ _ r (by rw [hq]; exact raceOperation_fulfilled_in_time t timeout r ht)]

/-- Claim C15: when the race of a fetch ends in a failure `err` (the operation's rejection or
the timeout error) and the cache holds an entry for the key, whatever its age, the exposed
state holds `err` as error and the cached value as data, with loading false, and the cache is
unchanged; in particular a run of `fetchData` that finds the entry stale and fails ends so. -/
theorem fetchData_failure_keeps_cached (queryKey : String) (queryFn : Invocation)
    (timeout : Nat) (nowStore : Int) (cache : QueryCache) (state : HookState)
    (entry : CacheEntry) (err : JSVal)
    (hentry : cacheGet cache queryKey = some entry)
    (hfail : raceOperation queryFn timeout = Settlement.rejected err) :
    fetchRequest queryKey queryFn timeout nowStore cache state
      = { state := { data := entry.data, loading := false, error := err },
          cache := cache, calls := 1 } ∧
    (∀ cacheTime nowCheck : Int, ¬ nowCheck - entry.timestamp < cacheTime →
      fetchData queryKey queryFn true timeout cacheTime nowCheck nowStore cache state
        = { state := { data := entry.data, loading := false, error := err },
            cache := cache, calls := 1 }) := by
  refine ⟨fetchRequest_rejected_cached _ _ _ _ _ _ err entry hfail hentry, ?_⟩
  intro cacheTime nowCheck hstale
  rw [fetchData_stale _ _ _ _ _ _ _ _ (by
    intro e he
    rw [hentry] at he
    cases he
    exact hstale)]
  exact fetchRequest_rejected_cached _ _ _ _ _ _ err entry hfail hentry

/-- Claim C18: one run of `fetchData` invokes the operation at most once, and when that
attempt fails the exposed error is the failure itself, not a re-mapped message: the reason
thrown by the operation, the reason of its rejection before the deadline, or the
`Error('Request timeout')` of the timer when the operation has not settled by the deadline. -/
theorem fetchData_single_attempt (queryKey : String) (queryFn : Invocation) (enabled : Bool)
    (timeout : Nat) (cacheTime nowCheck nowStore : Int) (cache : QueryCache)
    (state : HookState) :
    (fetchData queryKey queryFn enabled timeout cacheTime nowCheck nowStore cache state).calls
      ≤ 1 ∧
    (∀ err, raceOperation queryFn timeout = Settlement.rejected err →
      (fetchData queryKey queryFn enabled timeout cacheTime nowCheck nowStore cache state).calls
        = 1 →
      (fetchData queryKey queryFn enabled timeout cacheTime nowCheck nowStore cache
        state).state.error = err) ∧
    (∀ reason, queryFn = Invocation.throws reason →
      raceOperation queryFn timeout = Settlement.rejected reason) ∧
    (∀ t reason, queryFn = Invocation.returns (some (t, Settlement.rejected reason)) →
      t < timeout → raceOperation queryFn timeout = Settlement.rejected reason) ∧
    (settlesAfter queryFn timeout →
      raceOperation queryFn timeout = Settlement.rejected (mkError "Request timeout")) := by
  refine ⟨?_, ?_, ?_, ?_, raceOperation_late queryFn timeout⟩
  · cases enabled with
    | false => simp [fetchData]
    | true =>
      cases hc : cacheGet cache queryKey with
      | none => simp [fetchData, hc, fetchRequest_calls]
      | some entry =>
        by_cases hf : nowCheck - entry.timestamp < cacheTime
        · simp [fetchData, hc, hf]
        · simp [fetchData, hc, hf, fetchRequest_calls]
  · intro err herr hcalls
    cases enabled with
    | false => simp [fetchData] at hcalls
    | true =>
      cases hc : cacheGet cache queryKey with
      | none =>
        simp only [fetchData, hc]
        exact (fetchRequest_rejected_error _ _ _ _ _ _ err herr).1
      | some entry =>
        by_cases hf : nowCheck - entry.timestamp < cacheTime
        · simp [fetchData, hc, hf] at hcalls
        · simp only [fetchData, hc, hf]
          exact (fetchRequest_rejected_error _ _ _ _ _ _ err herr).1
  · intro reason hq
    rw [hq]
    rfl
  · intro t reason hq ht
    rw [hq]
    exact raceOperation_rejected_in_time t timeout reason ht

theorem cacheGet_cacheDelete_other (cache : QueryCache) (k k2 : String) (hne : k2 ≠ k) :
    cacheGet (cacheDelete cache k) k2 = cacheGet cache k2 := by
  induction cache with
  | nil => rfl
  | cons p rest ih =>
    obtain ⟨k3, e3⟩ := p
    by_cases h : k3 = k
    · subst h
      simp [cacheDelete, cacheGet, Ne.symm hne]
    · by_cases h2 : k3 = k2
      · subst h2
        simp [cacheDelete, cacheGet, h]
      · simp [cacheDelete, cacheGet, h, h2, ih]

theorem cacheGet_none_of_not_mem (cache : QueryCache) (k : String)
    (h : k ∉ cacheKeys cache) : cacheGet cache k = none := by
  induction cache with
  | nil => rfl
  | cons p rest ih =>
    obtain ⟨k3, e3⟩ := p
    have h1 : ¬ k3 = k ∧ k ∉ cacheKeys rest := by
      constructor
      · intro hk
        exact h (by simp [cacheKeys, hk])
      · intro hk
        exact h (by
          have : k ∈ List.map Prod.fst rest := hk
          simp [cacheKeys, this])
    simp [cacheGet, h1.1, ih h1.2]

theorem cacheGet_cacheDelete_same (cache : QueryCache) (k : String)
    (hkeys : (cacheKeys cache).Nodup) : cacheGet (cacheDelete cache k) k = none := by
  induction cache with
  | nil => rfl
  | cons p rest ih =>
    obtain ⟨k3, e3⟩ := p
    have hcons : k3 ∉ cacheKeys rest ∧ (cacheKeys rest).Nodup := by
      simpa [cacheKeys] using hkeys
    by_cases h : k3 = k
    · subst h
      simp only [cacheDelete, if_true]
      exact cacheGet_none_of_not_mem rest k3 hcons.1
    · simp [cacheDelete, cacheGet, h, ih hcons.2]

/-- Counterexample to C16: on a disabled hook `refetch` deletes the entry of the key and then
invokes nothing, although a fresh entry existed before the call. -/
theorem refetch_disabled_counterexample :
    (refetch "loc1" promptInvocation false 5000 CACHE_DURATION 1000 1020 cacheWithLoc1
        initialHookState).calls = 0 ∧
    (refetch "loc1" promptInvocation false 5000 CACHE_DURATION 1000 1020 cacheWithLoc1
        initialHookState).cache = [] := by
  constructor <;> rfl

/-- Claim C16, amended: `refetch` removes the cache entry of the hook's key, leaving the
entries under other keys unchanged, and then runs `fetchData` on that cache: when the hook is
enabled the operation is invoked, even if a fresh entry existed before the call; when the
hook is disabled nothing else happens. -/
theorem refetch_deletes_then_fetches (queryKey : String) (queryFn : Invocation)
    (enabled : Bool) (timeout : Nat) (cacheTime nowCheck nowStore : Int) (cache : QueryCache)
    (state : HookState) (hkeys : (cacheKeys cache).Nodup) :
    cacheGet (cacheDelete cache queryKey) queryKey = none ∧
    (∀ k2, k2 ≠ queryKey → cacheGet (cacheDelete cache queryKey) k2 = cacheGet cache k2) ∧
    refetch queryKey queryFn enabled timeout cacheTime nowCheck nowStore cache state
      = fetchData queryKey queryFn enabled timeout cacheTime nowCheck nowStore
          (cacheDelete cache queryKey) state ∧
    (enabled = true →
      (refetch queryKey queryFn enabled timeout cacheTime nowCheck nowStore cache state).calls
        = 1) ∧
    (enabled = false →
      refetch queryKey queryFn enabled timeout cacheTime nowCheck nowStore cache state
        = { state := state, cache := cacheDelete cache queryKey, calls := 0 }) := by
  have hnone := cacheGet_cacheDelete_same cache queryKey hkeys
  refine ⟨hnone, fun k2 hne => cacheGet_cacheDelete_other cache queryKey k2 hne, rfl, ?_, ?_⟩
  · intro he
    subst he
    simp [refetch, fetchData, hnone, fetchRequest_calls]
  · intro he
    subst he
    simp [refetch, fetchData]

/-- Witness for the amended C16: a refetch on the enabled hook over the one-entry cache. -/
theorem refetch_deletes_then_fetches_witness :
    cacheGet (cacheDelete cacheWithLoc1 "loc1") "loc1" = none ∧
    (∀ k2, k2 ≠ "loc1" → cacheGet (cacheDelete cacheWithLoc1 "loc1") k2
      = cacheGet cacheWithLoc1 k2) ∧
    refetch "loc1" promptInvocation true 5000 CACHE_DURATION 1000 1020 cacheWithLoc1
        initialHookState
      = fetchData "loc1" promptInvocation true 5000 CACHE_DURATION 1000 1020
          (cacheDelete cacheWithLoc1 "loc1") initialHookState ∧
    (true = true →
      (refetch "loc1" promptInvocation true 5000 CACHE_DURATION 1000 1020 cacheWithLoc1
        initialHookState).calls = 1) ∧
    (true = false →
      refetch "loc1" promptInvocation true 5000 CACHE_DURATION 1000 1020 cacheWithLoc1
          initialHookState
        = { state := initialHookState, cache := cacheDelete cacheWithLoc1 "loc1",
            calls := 0 }) :=
  refetch_deletes_then_fetches "loc1" promptInvocation true 5000 CACHE_DURATION 1000 1020
    cacheWithLoc1 initialHookState (by simp [cacheKeys, cacheWithLoc1])

/-- Counterexample to C17: the request for key `a` takes 4000 ms, the key changes to `b` after
100 ms, and the request for `b` is answered 50 ms later with `"B"`.  When the answer `"A"` of
the first request arrives, it replaces the exposed data of the hook, whose key is `b`. -/
theorem keyChange_late_result_counterexample :
    (keyChange "a" "b" slowRequestA quickRequestB 5000 CACHE_DURATION 0 100 []
        initialHookState).1
      = { data := JSVal.str "A", loading := false, error := JSVal.null } ∧
    cacheGet (keyChange "a" "b" slowRequestA quickRequestB 5000 CACHE_DURATION 0 100 []
        initialHookState).2 "b"
      = some { data := JSVal.str "B", timestamp := 150 } := by
  constructor <;> rfl

theorem raceSettleTime_in_time (t timeout : Nat) (s : Settlement JSVal) (ht : t < timeout) :
    raceSettleTime (Invocation.returns (some (t, s))) timeout = t := by
  simp [raceSettleTime, raceTimerFirst, ht]

/-- Claim C17, amended: nothing guards the state cells against a request started for an
earlier key.  If the key changes from `k1` to `k2` while the request for `k1` is in flight and
that request resolves after the one for `k2`, its result `r1` is applied on arrival: the
exposed state ends as data `r1`, loading false.  Only the cache keeps the two apart: `r1` is
stored under `k1` and `r2` under `k2`. -/
theorem keyChange_late_result_applied (k1 k2 : String) (timeout : Nat)
    (cacheTime clock0 : Int) (changeAt t1 t2 : Nat) (r1 r2 : JSVal) (cache : QueryCache)
    (state : HookState) (hne : k1 ≠ k2)
    (hmiss1 : cacheGet cache k1 = none) (hmiss2 : cacheGet cache k2 = none)
    (ht1 : t1 < timeout) (ht2 : t2 < timeout)
    (hflight : changeAt ≤ t1) (hlate : changeAt + t2 < t1) :
    (keyChange k1 k2 (Invocation.returns (some (t1, Settlement.fulfilled r1)))
        (Invocation.returns (some (t2, Settlement.fulfilled r2))) timeout cacheTime clock0
        changeAt cache state).1
      = { data := r1, loading := false, error := JSVal.null } ∧
    cacheGet (keyChange k1 k2 (Invocation.returns (some (t1, Settlement.fulfilled r1)))
        (Invocation.returns (some (t2, Settlement.fulfilled r2))) timeout cacheTime clock0
        changeAt cache state).2 k1
      = some { data := r1, timestamp := clock0 + t1 } ∧
    cacheGet (keyChange k1 k2 (Invocation.returns (some (t1, Settlement.fulfilled r1)))
        (Invocation.returns (some (t2, Settlement.fulfilled r2))) timeout cacheTime clock0
        changeAt cache state).2 k2
      = some { data := r2, timestamp := clock0 + (changeAt + t2 : Nat) } := by
  have hs1 := raceSettleTime_in_time t1 timeout (Settlement.fulfilled r1) ht1
  have hs2 := raceSettleTime_in_time t2 timeout (Settlement.fulfilled r2) ht2
  have hr1 := raceOperation_fulfilled_in_time t1 timeout r1 ht1
  have hr2 := raceOperation_fulfilled_in_time t2 timeout r2 ht2
  have h1 : ¬ t1 < changeAt := by omega
  have h2 : ¬ t1 ≤ changeAt + t2 := by omega
  have hkc : keyChange k1 k2 (Invocation.returns (some (t1, Settlement.fulfilled r1)))
      (Invocation.returns (some (t2, Settlement.fulfilled r2))) timeout cacheTime clock0
      changeAt cache state
      = ({ data := r1, loading := false, error := JSVal.null },
          cacheStore (cacheStore cache k2 r2 (clock0 + (changeAt + t2 : Nat))) k1 r1
            (clock0 + t1)) := by
    simp [keyChange, fetchBegin, hmiss1, hmiss2, hs1, hs2, h1, h2, fetchRequest, hr1, hr2]
  rw [hkc]
  refine ⟨rfl, cacheGet_cacheSet_same _ _ _, ?_⟩
  show cacheGet (cacheSet (cacheStore cache k2 r2 _) k1 _) k2 = _
  rw [cacheGet_cacheSet_other _ k1 k2 _ (Ne.symm hne)]
  exact cacheGet_cacheSet_same _ _ _

/-- Witness for the amended C17: the timeline of the counterexample. -/
theorem keyChange_late_result_applied_witness :
    (keyChange "a" "b" (Invocation.returns (some (4000, Settlement.fulfilled (JSVal.str "A"))))
        (Invocation.returns (some (50, Settlement.fulfilled (JSVal.str "B")))) 5000
        CACHE_DURATION 0 100 [] initialHookState).1
      = { data := JSVal.str "A", loading := false, error := JSVal.null } ∧
    cacheGet (keyChange "a" "b"
        (Invocation.returns (some (4000, Settlement.fulfilled (JSVal.str "A"))))
        (Invocation.returns (some (50, Settlement.fulfilled (JSVal.str "B")))) 5000
        CACHE_DURATION 0 100 [] initialHookState).2 "a"
      = some { data := JSVal.str "A", timestamp := 0 + (4000 : Nat) } ∧
    cacheGet (keyChange "a" "b"
        (Invocation.returns (some (4000, Settlement.fulfilled (JSVal.str "A"))))
        (Invocation.returns (some (50, Settlement.fulfilled (JSVal.str "B")))) 5000
        CACHE_DURATION 0 100 [] initialHookState).2 "b"
      = some { data := JSVal.str "B", timestamp := 0 + ((100 + 50 : Nat) : Int) } :=
  keyChange_late_result_applied "a" "b" 5000 CACHE_DURATION 0 100 4000 50 (JSVal.str "A")
    (JSVal.str "B") [] initialHookState (by decide) rfl rfl (by decide) (by decide)
    (by decide) (by decide)

/-- Witness for C12: the entry stored under `loc1` at time 0, read at time 1000. -/
theorem fetchData_fresh_entry_served_witness :
    fetchData "loc1" promptInvocation true 5000 CACHE_DURATION 1000 1020 cacheWithLoc1
        initialHookState
      = { state := { data := JSVal.str "X", loading := false, error := JSVal.null },
          cache := cacheWithLoc1, calls := 0 } :=
  fetchData_fresh_entry_served "loc1" promptInvocation 5000 CACHE_DURATION 1000 1020
    cacheWithLoc1 initialHookState { data := JSVal.str "X", timestamp := 0 } rfl (by decide)

/-- Witness for C14: an empty cache and an operation resolving after 20 ms. -/
theorem fetchData_success_stores_witness :
    fetchData "loc1" promptInvocation true 5000 CACHE_DURATION 1000 1020 [] initialHookState
      = { state := { data := mkResult (JSVal.str "rows") JSVal.null, loading := false,
                     error := JSVal.null },
          cache := cacheStore [] "loc1" (mkResult (JSVal.str "rows") JSVal.null) 1020,
          calls := 1 } ∧
    cacheGet (cacheStore [] "loc1" (mkResult (JSVal.str "rows") JSVal.null) 1020) "loc1"
      = some { data := mkResult (JSVal.str "rows") JSVal.null, timestamp := 1020 } :=
  fetchData_success_stores "loc1" promptInvocation 5000 CACHE_DURATION 1000 1020 []
    initialHookState 20 (mkResult (JSVal.str "rows") JSVal.null)
    (fun _ h => by simp [cacheGet] at h) rfl (by decide)

/-- Witness for C15: a fetch for `reviews` that times out after an earlier run of `fetchData`
stored the list under that key. -/
theorem fetchData_failure_keeps_cached_witness :
    fetchRequest "reviews" (Invocation.returns none) 5000 400000
        (fetchData "reviews" promptInvocation true 5000 CACHE_DURATION 1000 1020 []
          initialHookState).cache initialHookState
      = { state := { data := mkResult (JSVal.str "rows") JSVal.null, loading := false,
                     error := mkError "Request timeout" },
          cache := (fetchData "reviews" promptInvocation true 5000 CACHE_DURATION 1000 1020 []
            initialHookState).cache,
          calls := 1 } ∧
    (∀ cacheTime nowCheck : Int, ¬ nowCheck - (1020 : Int) < cacheTime →
      fetchData "reviews" (Invocation.returns none) true 5000 cacheTime nowCheck 400000
          (fetchData "reviews" promptInvocation true 5000 CACHE_DURATION 1000 1020 []
            initialHookState).cache initialHookState
        = { state := { data := mkResult (JSVal.str "rows") JSVal.null, loading := false,
                       error := mkError "Request timeout" },
            cache := (fetchData "reviews" promptInvocation true 5000 CACHE_DURATION 1000 1020
              [] initialHookState).cache,
            calls := 1 }) :=
  fetchData_failure_keeps_cached "reviews" (Invocation.returns none) 5000 400000
    (fetchData "reviews" promptInvocation true 5000 CACHE_DURATION 1000 1020 []
      initialHookState).cache
    initialHookState { data := mkResult (JSVal.str "rows") JSVal.null, timestamp := 1020 }
    (mkError "Request timeout") rfl rfl

theorem raceInvocation_late (call : Invocation) (timeoutMs : Nat) (message : String)
    (h : settlesAfter call timeoutMs) :
    raceInvocation call timeoutMs message = Settlement.rejected (mkError message) := by
  match call, h with
  | Invocation.returns none, _ => rfl
  | Invocation.returns (some (t, s)), h =>
    have ht : ¬ t < timeoutMs := by
      have hlt : timeoutMs < t := by simpa [settlesAfter] using h
      omega
    simp [raceInvocation, raceTimerFirst, ht]

theorem raceInvocation_rejected (t timeoutMs : Nat) (message : String) (reason : JSVal) :
    ∃ err, raceInvocation (Invocation.returns (some (t, Settlement.rejected reason)))
      timeoutMs message = Settlement.rejected err := by
  by_cases ht : t < timeoutMs
  · exact ⟨reason, by simp [raceInvocation, raceTimerFirst, ht]⟩
  · exact ⟨mkError message, by simp [raceInvocation, raceTimerFirst, ht]⟩

theorem getSession_of_rejected (sessionCall : Invocation) (mounted : Bool) (state : AuthState)
    (err : JSVal)
    (h : raceInvocation sessionCall 5000 "Session timeout" = Settlement.rejected err) :
    getSession sessionCall mounted state = getSessionCatch mounted state := by
  simp [getSession, h]

/-- Claim C19: while the controller is mounted, if the session call has not settled within
5 seconds, throws, or rejects, `getSession` sets the user to `null` and loading to false and
starts no profile fetch; the same holds when the call resolves in time with a result whose
session is absent, which is how the backend client reports its own errors. -/
theorem getSession_failure_unauthenticated (sessionCall : Invocation) (state : AuthState)
    (hfail : settlesAfter sessionCall 5000 ∨ (∃ reason, sessionCall = Invocation.throws reason) ∨
      (∃ t reason, sessionCall = Invocation.returns (some (t, Settlement.rejected reason)))) :
    getSession sessionCall true state
      = { state := { user := JSVal.null, loading := false, profile := state.profile },
          profileFetch := none } ∧
    (∀ (t : Nat) (value data session : JSVal), t < 5000 →
      getProp value "data" = Except.ok data → getProp data "session" = Except.ok session →
      isNullish session = true →
      getSession (Invocation.returns (some (t, Settlement.fulfilled value))) true state
        = { state := { user := JSVal.null, loading := false, profile := state.profile },
            profileFetch := none }) := by
  constructor
  · have hcatch : getSession sessionCall true state = getSessionCatch true state := by
      rcases hfail with hlate | ⟨reason, hq⟩ | ⟨t, reason, hq⟩
      · exact getSession_of_rejected _ _ _ _ (raceInvocation_late _ _ _ hlate)
      · rw [hq]
        exact getSession_of_rejected _ _ _ reason rfl
      · rw [hq]
        obtain ⟨err, herr⟩ := raceInvocation_rejected t 5000 "Session timeout" reason
        exact getSession_of_rejected _ _ _ err herr
    rw [hcatch]
    rfl
  · intro t value data session ht hd hs hnull
    cases session <;> simp [isNullish] at hnull <;>
      simp [getSession, raceInvocation, raceTimerFirst, ht, hd, hs, optionalProp, nullishOr,
        isNullish, truthy]

/-- Witness for C19: a session call that never settles. -/
theorem getSession_failure_unauthenticated_witness :
    getSession sessionCallPending true initialAuthState
      = { state := { user := JSVal.null, loading := false,
                     profile := initialAuthState.profile },
          profileFetch := none } :=
  (getSession_failure_unauthenticated sessionCallPending initialAuthState (Or.inl trivial)).1

/-- Claim C20, the code at the failing input: a profile query answered with a backend error
result other than "no row found" makes `fetchProfile` return before `setProfile`, so the
profile loaded earlier is still held. -/
theorem fetchProfile_backend_error_keeps_profile :
    fetchProfile profileQueryDenied signedInState = signedInState ∧
    signedInState.profile = loadedProfile ∧ isNullish loadedProfile = false :=
  ⟨rfl, rfl, rfl⟩

/-- The failures that reach the `catch` block of `fetchProfile` (a thrown error, a rejection,
the 3-second timer) do clear the profile. -/
theorem fetchProfile_rejected_clears (profileQuery : Invocation) (state : AuthState)
    (err : JSVal)
    (h : raceInvocation profileQuery 3000 "Profile fetch timeout" = Settlement.rejected err) :
    fetchProfile profileQuery state = { state with profile := JSVal.null } := by
  simp [fetchProfile, h]

/-- A backend error result other than "no row found" leaves every state cell as it was. -/
theorem fetchProfile_backend_error_unchanged (t : Nat) (data error : JSVal) (state : AuthState)
    (ht : t < 3000) (herr : truthy error = true)
    (hcode : strictEqStr (optionalProp error "code") "PGRST116" = false) :
    fetchProfile (Invocation.returns (some (t, Settlement.fulfilled (mkResult data error))))
      state = state := by
  simp [fetchProfile, raceInvocation, raceTimerFirst, ht, getProp, mkResult, lookupField, herr,
    hcode]

/-! ## Retry budget, profile operations and the controller -/

theorem attemptLoop_calls_le (queryFn : Nat → Invocation) (timeout : Nat) (f : JSVal)
    (retries : Int) :
    ∀ (fuel attempt calls : Nat) (waits : List Nat),
      (attemptLoop queryFn timeout f retries fuel attempt calls waits).calls ≤ calls + fuel := by
  intro fuel
  induction fuel with
  | zero =>
    intro attempt calls waits
    simp [attemptLoop]
  | succ n ih =>
    intro attempt calls waits
    rw [attemptLoop]
    by_cases h1 : (attempt : Int) ≤ retries
    · cases ht : tryAttempt (queryFn calls) timeout with
      | ok v =>
        simp only [h1, if_true]
        omega
      | error e =>
        by_cases h2 : (attempt : Int) = retries
        · simp only [if_pos h1, if_pos h2]
          omega
        · simp only [if_pos h1, if_neg h2]
          have := ih (attempt + 1) (calls + 1) (waits ++ [1000])
          omega
    · simp only [h1, if_false]
      omega

theorem attemptLoop_first_success (queryFn : Nat → Invocation) (timeout : Nat) (f : JSVal)
    (retries : Int) (errs : Nat → JSVal) (v : JSVal) :
    ∀ (k n attempt calls : Nat) (waits : List Nat), (attempt : Int) + n = retries → k ≤ n →
      (∀ j, j < k → tryAttempt (queryFn (calls + j)) timeout = Except.error (errs (calls + j))) →
      tryAttempt (queryFn (calls + k)) timeout = Except.ok v →
      attemptLoop queryFn timeout f retries (n + 1) attempt calls waits
        = ⟨Except.ok v, calls + k + 1, waits ++ List.replicate k 1000⟩ := by
  intro k
  induction k with
  | zero =>
    intro n attempt calls waits h _ _ hok
    have h1 : (attempt : Int) ≤ retries := by omega
    have hok2 : tryAttempt (queryFn calls) timeout = Except.ok v := by simpa using hok
    rw [attemptLoop]
    simp [h1, hok2]
  | succ k ih =>
    intro n attempt calls waits h hk hfail hok
    obtain ⟨m, hm⟩ : ∃ m, n = m + 1 := ⟨n - 1, by omega⟩
    subst hm
    have h1 : (attempt : Int) ≤ retries := by omega
    have h2 : ¬ (attempt : Int) = retries := by omega
    have h3 : ((attempt + 1 : Nat) : Int) + m = retries := by push_cast; omega
    have hf0 : tryAttempt (queryFn calls) timeout = Except.error (errs calls) := by
      simpa using hfail 0 (by omega)
    have hfail2 : ∀ j, j < k → tryAttempt (queryFn (calls + 1 + j)) timeout
        = Except.error (errs (calls + 1 + j)) := by
      intro j hj
      have := hfail (j + 1) (by omega)
      have e : calls + (j + 1) = calls + 1 + j := by omega
      rwa [e] at this
    have hok2 : tryAttempt (queryFn (calls + 1 + k)) timeout = Except.ok v := by
      have e : calls + (k + 1) = calls + 1 + k := by omega
      rwa [e] at hok
    rw [attemptLoop]
    simp only [h1, h2, hf0, if_true, if_false]
    rw [ih m (attempt + 1) (calls + 1) (waits ++ [1000]) h3 (by omega) hfail2 hok2]
    simp [List.replicate_succ, Nat.add_assoc, Nat.add_comm 1 k]

theorem attemptLoop_all_fail_upto (queryFn : Nat → Invocation) (timeout : Nat) (f : JSVal)
    (retries : Int) (errs : Nat → JSVal) :
    ∀ (n attempt calls : Nat) (waits : List Nat), (attempt : Int) + n = retries →
      (∀ j, j ≤ n → tryAttempt (queryFn (calls + j)) timeout = Except.error (errs (calls + j))) →
      attemptLoop queryFn timeout f retries (n + 1) attempt calls waits
        = ⟨handleSupabaseError (errs (calls + n)) f, calls + n + 1,
            waits ++ List.replicate n 1000⟩ := by
  intro n
  induction n with
  | zero =>
    intro attempt calls waits h hfail
    have h1 : (attempt : Int) ≤ retries := by omega
    have h2 : (attempt : Int) = retries := by omega
    have hf0 : tryAttempt (queryFn calls) timeout = Except.error (errs calls) := by
      simpa using hfail 0 (by omega)
    simp [attemptLoop, h1, h2, hf0]
  | succ n ih =>
    intro attempt calls waits h hfail
    have h1 : (attempt : Int) ≤ retries := by omega
    have h2 : ¬ (attempt : Int) = retries := by omega
    have h3 : ((attempt + 1 : Nat) : Int) + n = retries := by push_cast; omega
    have hf0 : tryAttempt (queryFn calls) timeout = Except.error (errs calls) := by
      simpa using hfail 0 (by omega)
    have hfail2 : ∀ j, j ≤ n → tryAttempt (queryFn (calls + 1 + j)) timeout
        = Except.error (errs (calls + 1 + j)) := by
      intro j hj
      have := hfail (j + 1) (by omega)
      have e : calls + (j + 1) = calls + 1 + j := by omega
      rwa [e] at this
    rw [attemptLoop]
    simp only [h1, h2, hf0, if_true, if_false]
    rw [ih (attempt + 1) (calls + 1) (waits ++ [1000]) h3 hfail2]
    simp [List.replicate_succ, Nat.add_assoc, Nat.add_comm 1 n]

/-- Counterexample to C28: an operation that resolves at once with `null`, under two retries.
The helper does not stop at the first attempt, although it resolved in time: the operation is
invoked three times with two backoff waits. -/
theorem optimizedQuery_null_result_counterexample :
    (optimizedQuery resolvesNull { timeout := 5000, retries := 2 }).calls = 3 ∧
    (optimizedQuery resolvesNull { timeout := 5000, retries := 2 }).waits = [1000, 1000] ∧
    (optimizedQuery resolvesNull { timeout := 5000, retries := 2 }).outcome
      = Except.ok (mkResult JSVal.null
          (JSVal.str "Cannot read properties of null (reading \x27data\x27)")) :=
  ⟨by decide, by decide, rfl⟩

/-- Claim C28, amended: for every retry count `r`, `optimizedQuery` invokes the operation at
most `r + 1` times.  It stops at the first attempt that resolves before the deadline with a
result other than `undefined` and `null`: if the attempts before attempt `k ≤ r` fail and
attempt `k` so resolves, there are `k + 1` invocations, `k` waits of 1000 ms, and that
result's data and error are returned.  An attempt that resolves with `undefined` or `null`
fails like a rejected one.  If all attempts `0..r` fail, the operation is invoked exactly
`r + 1` times with exactly `r` waits of 1000 ms, none after the last attempt, and the error
reported is the last attempt's, mapped by `handleSupabaseError`. -/
theorem optimizedQuery_retry_budget (queryFn : Nat → Invocation) (d : Nat) (f : JSVal)
    (r : Nat) (errs : Nat → JSVal) :
    (optimizedQuery queryFn { timeout := d, fallbackData := f, retries := (r : Int) }).calls
      ≤ r + 1 ∧
    (∀ (k t : Nat) (v : JSVal), k ≤ r →
      (∀ j, j < k → tryAttempt (queryFn j) d = Except.error (errs j)) →
      queryFn k = Invocation.returns (some (t, Settlement.fulfilled v)) → t < d →
      isNullish v = false →
      ∃ data error, getProp v "data" = Except.ok data ∧ getProp v "error" = Except.ok error ∧
        optimizedQuery queryFn { timeout := d, fallbackData := f, retries := (r : Int) }
          = ⟨Except.ok (mkResult data error), k + 1, List.replicate k 1000⟩) ∧
    ((∀ j, j ≤ r → tryAttempt (queryFn j) d = Except.error (errs j)) →
      optimizedQuery queryFn { timeout := d, fallbackData := f, retries := (r : Int) }
        = ⟨handleSupabaseError (errs r) f, r + 1, List.replicate r 1000⟩) ∧
    (∀ (t : Nat) (v : JSVal), isNullish v = true →
      ∃ e, tryAttempt (Invocation.returns (some (t, Settlement.fulfilled v))) d
        = Except.error e) := by
  refine ⟨?_, ?_, ?_, ?_⟩
  · have h := attemptLoop_calls_le queryFn d f (r : Int) (r + 1) 0 0 []
    simpa [optimizedQuery, toNat_retries_succ] using h
  · intro k t v hk hfail hq ht hv
    obtain ⟨data, hd⟩ := getProp_ok_of_not_nullish v "data" hv
    obtain ⟨error, he⟩ := getProp_ok_of_not_nullish v "error" hv
    refine ⟨data, error, hd, he, ?_⟩
    have hok : tryAttempt (queryFn (0 + k)) d = Except.ok (mkResult data error) := by
      rw [Nat.zero_add, hq]
      exact tryAttempt_in_time t d v data error (Nat.le_of_lt ht) hd he
    have h := attemptLoop_first_success queryFn d f (r : Int) errs (mkResult data error)
      k r 0 0 [] (by simp) hk (by simpa using hfail) hok
    simp only [optimizedQuery, toNat_retries_succ]
    rw [h]
    simp
  · intro hfail
    have h := attemptLoop_all_fail_upto queryFn d f (r : Int) errs r 0 0 [] (by simp)
      (by simpa using hfail)
    simp only [optimizedQuery, toNat_retries_succ]
    rw [h]
    simp
  · intro t v hv
    by_cases ht : t ≤ d
    · cases v <;> simp [isNullish] at hv <;> simp [tryAttempt, withTimeout, ht, getProp]
    · exact ⟨mkError "Request timeout", by simp [tryAttempt, withTimeout, ht]⟩

theorem destructureProp_mkResult_data (d e : JSVal) :
    destructureProp (mkResult d e) "data" = Except.ok d := rfl

theorem destructureProp_mkResult_error (d e : JSVal) :
    destructureProp (mkResult d e) "error" = Except.ok e := rfl

theorem fetchProfileRun_state (profileQuery : Invocation) (state : AuthState) :
    (fetchProfileRun profileQuery state).1 = fetchProfile profileQuery state := by
  cases hr : raceInvocation profileQuery 3000 "Profile fetch timeout" with
  | rejected reason => simp [fetchProfileRun, fetchProfileTry, fetchProfile, hr]
  | fulfilled value =>
    cases hd : getProp value "data" with
    | error e => simp [fetchProfileRun, fetchProfileTry, fetchProfile, hr, hd]
    | ok data =>
      cases he : getProp value "error" with
      | error e => simp [fetchProfileRun, fetchProfileTry, fetchProfile, hr, hd, he]
      | ok error =>
        by_cases h : truthy error = true ∧
            strictEqStr (optionalProp error "code") "PGRST116" = false
        · simp [fetchProfileRun, fetchProfileTry, fetchProfile, hr, hd, he, h]
        · simp [fetchProfileRun, fetchProfileTry, fetchProfile, hr, hd, he, h]

theorem fetchProfile_frame (profileQuery : Invocation) (state : AuthState) :
    (fetchProfile profileQuery state).user = state.user ∧
    (fetchProfile profileQuery state).loading = state.loading := by
  cases hr : raceInvocation profileQuery 3000 "Profile fetch timeout" with
  | rejected reason => simp [fetchProfile, hr]
  | fulfilled value =>
    cases hd : getProp value "data" with
    | error e => simp [fetchProfile, hr, hd]
    | ok data =>
      cases he : getProp value "error" with
      | error e => simp [fetchProfile, hr, hd, he]
      | ok error =>
        by_cases h : truthy error = true ∧
            strictEqStr (optionalProp error "code") "PGRST116" = false
        · simp [fetchProfile, hr, hd, he, h]
        · simp [fetchProfile, hr, hd, he, h]

/-- Claim C21: whatever the outcome of the profile query (a row, no row, a backend error
result, a thrown error, a rejection, the 3-second timeout), `fetchProfile` leaves `user` and
`loading` as they were, so that only `profile` can differ, and the promise it returns
resolves (to `undefined`): it never rejects. -/
theorem fetchProfile_changes_only_profile (profileQuery : Invocation) (state : AuthState) :
    (fetchProfileRun profileQuery state).1.user = state.user ∧
    (fetchProfileRun profileQuery state).1.loading = state.loading ∧
    (fetchProfileRun profileQuery state).2 = Except.ok JSVal.undefined := by
  refine ⟨?_, ?_, ?_⟩
  · rw [fetchProfileRun_state]
    exact (fetchProfile_frame profileQuery state).1
  · rw [fetchProfileRun_state]
    exact (fetchProfile_frame profileQuery state).2
  · unfold fetchProfileRun
    cases fetchProfileTry profileQuery state <;> rfl

/-- Claim C22, amended: when the sign-up call resolves with data holding a user and no
error, and the insert of the profile row is answered, with an error or not, `signUp` returns
`{ data, error: null }` after one insert; an insert that rejects instead reaches the outer
`catch` block and `signUp` returns `{ data: null, error }` with the rejection reason.  When
the sign-up call resolves with an error, `signUp` returns `{ data: null, error }` and issues
no insert. -/
theorem signUp_profile_insert_best_effort (t u : Nat) (data user inserted insertError : JSVal)
    (insertCall : Invocation) (signUpError : JSVal)
    (huser : getProp data "user" = Except.ok user) (hcreated : truthy user = true)
    (hinsert : destructureProp inserted "error" = Except.ok insertError)
    (herror : truthy signUpError = true) :
    signUp (Invocation.returns (some (t, Settlement.fulfilled (mkResult data JSVal.null))))
        (Invocation.returns (some (u, Settlement.fulfilled inserted)))
      = { result := some (mkResult data JSVal.null), inserts := 1 } ∧
    (∀ reason : JSVal,
      signUp (Invocation.returns (some (t, Settlement.fulfilled (mkResult data JSVal.null))))
          (Invocation.returns (some (u, Settlement.rejected reason)))
        = { result := some (mkResult JSVal.null reason), inserts := 1 }) ∧
    signUp (Invocation.returns (some (t, Settlement.fulfilled (mkResult data signUpError))))
        insertCall
      = { result := some (mkResult JSVal.null signUpError), inserts := 0 } := by
  have hnull : truthy JSVal.null = false := rfl
  refine ⟨?_, ?_, ?_⟩
  · simp [signUp, awaitCall, destructureProp_mkResult_data, destructureProp_mkResult_error,
      hnull, signUpProfile, huser, hcreated, hinsert]
  · intro reason
    simp [signUp, awaitCall, destructureProp_mkResult_data, destructureProp_mkResult_error,
      hnull, signUpProfile, huser, hcreated]
  · simp [signUp, awaitCall, destructureProp_mkResult_data, destructureProp_mkResult_error,
      herror]

/-- Witness for the amended C22: a created user whose profile insert is denied, and a denied
sign-up. -/
theorem signUp_profile_insert_best_effort_witness :
    signUp signUpCallOk insertCallDenied
      = { result := some (mkResult signUpData JSVal.null), inserts := 1 } ∧
    (∀ reason : JSVal,
      signUp signUpCallOk (Invocation.returns (some (200, Settlement.rejected reason)))
        = { result := some (mkResult JSVal.null reason), inserts := 1 }) ∧
    signUp signUpCallDenied insertCallDenied
      = { result := some (mkResult JSVal.null permissionError), inserts := 0 } :=
  signUp_profile_insert_best_effort 300 200 signUpData (JSVal.obj [("id", JSVal.str "u1")])
    (mkResult JSVal.null permissionError) permissionError insertCallDenied permissionError
    rfl rfl rfl rfl

/-- Counterexample to C22: the sign-up succeeds and returns a user, and the insert of the
profile row fails by rejecting.  The rejection reaches the `catch` block of `signUp`, which
returns `{ data: null, error }` although the account exists. -/
theorem signUp_insert_rejection_fails_signUp :
    signUp signUpCallOk insertCallRejects
      = { result := some (mkResult JSVal.null (mkError "Failed to fetch")), inserts := 1 } :=
  rfl

/-- Claim C23: when no user is authenticated (`user` is falsy), `updateProfile` resolves, for
every update call, to `{ data: null, error }` where `error` is an `Error` whose message is
`No user logged in`; no backend update is issued and the state cells, the profile included,
are unchanged. -/
theorem updateProfile_requires_user (updateCall : Invocation) (state : AuthState)
    (hnouser : truthy state.user = false) :
    updateProfile updateCall state
      = { state := state, result := some (mkResult JSVal.null (mkError "No user logged in")),
          updates := 0 } ∧
    getProp (mkError "No user logged in") "message" = Except.ok (JSVal.str "No user logged in")
    := by
  constructor
  · simp [updateProfile, hnouser]
  · rfl

/-- Witness for C23: the initial controller state, where `user` is `null`. -/
theorem updateProfile_requires_user_witness :
    updateProfile updateCallOk initialAuthState
      = { state := initialAuthState,
          result := some (mkResult JSVal.null (mkError "No user logged in")), updates := 0 } ∧
    getProp (mkError "No user logged in") "message" = Except.ok (JSVal.str "No user logged in")
    :=
  updateProfile_requires_user updateCallOk initialAuthState rfl

/-- Claim C24: when a user is authenticated and the update query is answered with
`{ data: d, error }`: without an error, the profile becomes `d`, the row confirmed by the
server, and the result is `{ data: d, error: null }`; with an error, the state cells are
unchanged and the result is `{ data: null, error }`. -/
theorem updateProfile_server_row (t : Nat) (d error : JSVal) (state : AuthState)
    (huser : truthy state.user = true) :
    (truthy error = false →
      updateProfile (Invocation.returns (some (t, Settlement.fulfilled (mkResult d error))))
          state
        = { state := { state with profile := d }, result := some (mkResult d JSVal.null),
            updates := 1 }) ∧
    (truthy error = true →
      updateProfile (Invocation.returns (some (t, Settlement.fulfilled (mkResult d error))))
          state
        = { state := state, result := some (mkResult JSVal.null error), updates := 1 }) := by
  constructor
  · intro he
    simp [updateProfile, huser, awaitCall, destructureProp_mkResult_data,
      destructureProp_mkResult_error, he]
  · intro he
    simp [updateProfile, huser, awaitCall, destructureProp_mkResult_data,
      destructureProp_mkResult_error, he]

/-- Witness for C24: the signed-in controller and an update answered with the row. -/
theorem updateProfile_server_row_witness :
    (truthy JSVal.null = false →
      updateProfile (Invocation.returns
          (some (150, Settlement.fulfilled (mkResult loadedProfile JSVal.null)))) signedInState
        = { state := { signedInState with profile := loadedProfile },
            result := some (mkResult loadedProfile JSVal.null), updates := 1 }) ∧
    (truthy JSVal.null = true →
      updateProfile (Invocation.returns
          (some (150, Settlement.fulfilled (mkResult loadedProfile JSVal.null)))) signedInState
        = { state := signedInState, result := some (mkResult JSVal.null JSVal.null),
            updates := 1 }) :=
  updateProfile_server_row 150 loadedProfile JSVal.null signedInState rfl

theorem onAuthStateChange_signed_out (session : JSVal) (state : AuthState)
    (h : isNullish session = true) :
    onAuthStateChange session true state
      = { state := { user := JSVal.null, loading := false, profile := JSVal.null },
          profileFetch := none } := by
  cases session <;> simp [isNullish] at h <;>
    simp [onAuthStateChange, optionalProp, truthy, nullishOr, isNullish]

/-- Claim C25: on a mounted controller holding its subscription, after a call of `signOut`
that the backend answers without an error, the promise of `signOut` has resolved to
`{ error }` with that absent error, and the controller, having handled the change
notification the backend pushes on sign-out, is unauthenticated with the profile cleared:
`user` and `profile` are `null`. -/
theorem signOut_then_unauthenticated (t : Nat) (value error : JSVal) (c : Controller)
    (herr : destructureProp value "error" = Except.ok error)
    (hnoerror : truthy error = false) (hmounted : c.mounted = true)
    (hsubscribed : c.subscribed = true) :
    (signOutOnController (Invocation.returns (some (t, Settlement.fulfilled value))) c).1
      = some (JSVal.obj [("error", error)]) ∧
    (signOutOnController (Invocation.returns (some (t, Settlement.fulfilled value)))
      c).2.state.user = JSVal.null ∧
    (signOutOnController (Invocation.returns (some (t, Settlement.fulfilled value)))
      c).2.state.profile = JSVal.null := by
  have hnotes : backendSignOutNotifications
      (Invocation.returns (some (t, Settlement.fulfilled value))) c.subscribed
      = [AuthEvent.authChange JSVal.null] := by
    simp [backendSignOutNotifications, awaitCall, herr, hnoerror, hsubscribed]
  have hstep : (runController c [AuthEvent.authChange JSVal.null]).state
      = { user := JSVal.null, loading := false, profile := JSVal.null } := by
    simp [runController, stepController, afterRun, hmounted,
      onAuthStateChange_signed_out JSVal.null c.state rfl]
  refine ⟨?_, ?_, ?_⟩
  · simp [signOutOnController, signOut, awaitCall, herr]
  · simp only [signOutOnController, hnotes, hstep]
  · simp only [signOutOnController, hnotes, hstep]

/-- Witness for C25: a sign-out answered without error on the controller where `u1` is signed
in and a profile fetch is in flight. -/
theorem signOut_then_unauthenticated_witness :
    (signOutOnController signOutCallOk
        (runController initialController [AuthEvent.authChange sessionOfU1])).1
      = some (JSVal.obj [("error", JSVal.null)]) ∧
    (signOutOnController signOutCallOk
        (runController initialController [AuthEvent.authChange sessionOfU1])).2.state.user
      = JSVal.null ∧
    (signOutOnController signOutCallOk
        (runController initialController [AuthEvent.authChange sessionOfU1])).2.state.profile
      = JSVal.null :=
  signOut_then_unauthenticated 80 (JSVal.obj [("error", JSVal.null)]) JSVal.null
    (runController initialController [AuthEvent.authChange sessionOfU1]) rfl rfl rfl rfl

theorem getSession_unmounted (sessionCall : Invocation) (state : AuthState) :
    (getSession sessionCall false state).state = state ∧
    (getSession sessionCall false state).profileFetch = none := by
  cases hr : raceInvocation sessionCall 5000 "Session timeout" with
  | rejected reason => simp [getSession, hr, getSessionCatch]
  | fulfilled value =>
    cases hd : getProp value "data" with
    | error e => simp [getSession, hr, hd, getSessionCatch]
    | ok data =>
      cases hs : getProp data "session" with
      | error e => simp [getSession, hr, hd, hs, getSessionCatch]
      | ok session => simp [getSession, hr, hd, hs]

theorem onAuthStateChange_unmounted (session : JSVal) (state : AuthState) :
    onAuthStateChange session false state = { state := state, profileFetch := none } := by
  simp [onAuthStateChange]

/-- The guarded part of the teardown: once the effect is torn down, a settling session call
and a late notification leave the state cells as they are, and the subscription is
released. -/
theorem stepController_after_teardown (c : Controller) (hm : c.mounted = false) :
    (∀ sessionCall, (stepController c (AuthEvent.sessionSettled sessionCall)).state = c.state) ∧
    (∀ session, (stepController c (AuthEvent.authChange session)).state = c.state) ∧
    (stepController c AuthEvent.teardown).subscribed = false ∧
    (stepController c AuthEvent.teardown).state = c.state := by
  refine ⟨?_, ?_, rfl, rfl⟩
  · intro sessionCall
    simp [stepController, afterRun, hm, (getSession_unmounted sessionCall c.state).1]
  · intro session
    simp [stepController, afterRun, hm, onAuthStateChange_unmounted]

theorem stepController_unmounted (c : Controller) (event : AuthEvent)
    (hm : c.mounted = false) :
    (stepController c event).state = c.state ∧ (stepController c event).mounted = false ∧
    (c.subscribed = false → (stepController c event).subscribed = false) := by
  cases event with
  | sessionSettled sessionCall =>
    simp [stepController, afterRun, hm, (getSession_unmounted sessionCall c.state).1]
  | authChange session =>
    simp [stepController, afterRun, hm, onAuthStateChange_unmounted]
  | profileSettled profileQuery =>
    by_cases h0 : c.inFlight = 0
    · simp [stepController, h0, hm]
    · simp [stepController, h0, hm]
  | teardown => simp [stepController]

theorem runController_unmounted (events : List AuthEvent) :
    ∀ c : Controller, c.mounted = false → c.subscribed = false →
      (runController c events).state = c.state ∧
      (runController c events).subscribed = false := by
  induction events with
  | nil =>
    intro c _ hs
    exact ⟨rfl, hs⟩
  | cons event rest ih =>
    intro c hm hs
    obtain ⟨h1, h2, h3⟩ := stepController_unmounted c event hm
    obtain ⟨h4, h5⟩ := ih (stepController c event) h2 (h3 hs)
    have hrun : runController c (event :: rest) = runController (stepController c event) rest :=
      rfl
    rw [hrun]
    exact ⟨h4.trans h1, h5⟩

/-- Claim C26: after the controller is torn down, whatever arrives late, in any number and
order (the settling session call, change notifications, the answers of profile fetches in
flight), leaves the state cells `user`, `profile` and `loading` as they were at the teardown;
the teardown releases the change-notification subscription, and it stays released. -/
theorem teardown_discards_late_results (c : Controller) (events : List AuthEvent) :
    (stepController c AuthEvent.teardown).state = c.state ∧
    (stepController c AuthEvent.teardown).subscribed = false ∧
    (runController (stepController c AuthEvent.teardown) events).state = c.state ∧
    (runController (stepController c AuthEvent.teardown) events).subscribed = false := by
  have h := runController_unmounted events (stepController c AuthEvent.teardown) rfl rfl
  exact ⟨rfl, rfl, h.1, h.2⟩

/-- The run behind C26 on a concrete controller: a notification signs `u1` in and starts the
profile fetch, the effect is torn down, and the answer of the profile query arrives: the
profile is `null` as it was at the teardown. -/
theorem teardown_then_profile_answer_discarded :
    (runController initialController
        [AuthEvent.authChange sessionOfU1, AuthEvent.teardown,
         AuthEvent.profileSettled profileQueryOk]).state
      = (runController initialController [AuthEvent.authChange sessionOfU1]).state ∧
    (runController initialController
        [AuthEvent.authChange sessionOfU1, AuthEvent.teardown,
         AuthEvent.profileSettled profileQueryOk]).state.profile = JSVal.null :=
  ⟨rfl, rfl⟩

/-- Counterexample to C27: a notification signs `u1` in and starts the profile fetch, a second
notification signs out, and then the profile query is answered: `user` is `null` while
`profile` holds the row of `u1`. -/
theorem controller_profile_without_user_counterexample :
    (runController initialController
        [AuthEvent.authChange sessionOfU1, AuthEvent.authChange JSVal.null,
         AuthEvent.profileSettled profileQueryOk]).state.user = JSVal.null ∧
    (runController initialController
        [AuthEvent.authChange sessionOfU1, AuthEvent.authChange JSVal.null,
         AuthEvent.profileSettled profileQueryOk]).state.profile = loadedProfile ∧
    isNullish loadedProfile = false :=
  ⟨rfl, rfl, rfl⟩

theorem fetchProfile_row (t : Nat) (row : JSVal) (state : AuthState) (ht : t < 3000)
    (hrow : truthy row = true) :
    fetchProfile (Invocation.returns (some (t, Settlement.fulfilled (mkResult row JSVal.null))))
      state = { state with profile := row } := by
  have hd : getProp (mkResult row JSVal.null) "data" = Except.ok row := rfl
  have he : getProp (mkResult row JSVal.null) "error" = Except.ok JSVal.null := rfl
  have hnull : truthy JSVal.null = false := rfl
  simp [fetchProfile, raceInvocation, raceTimerFirst, ht, hd, he, hnull, jsOr, hrow]

/-- Claim C27, amended: in every state the mounted controller can reach, handling a
notification with an absent session leaves `user` and `profile` both `null`.  A profile-fetch
completion never changes `user`, and when it brings a row it sets `profile` to that row
whatever the current `user` is. -/
theorem controller_consistency_after_sign_out (events : List AuthEvent) (session : JSVal)
    (hmounted : (runController initialController events).mounted = true)
    (hsession : isNullish session = true) :
    (stepController (runController initialController events)
        (AuthEvent.authChange session)).state.user = JSVal.null ∧
    (stepController (runController initialController events)
        (AuthEvent.authChange session)).state.profile = JSVal.null ∧
    (∀ profileQuery,
      (stepController (runController initialController events)
        (AuthEvent.profileSettled profileQuery)).state.user
        = (runController initialController events).state.user) ∧
    (∀ (t : Nat) (row : JSVal), t < 3000 → truthy row = true →
      0 < (runController initialController events).inFlight →
      (stepController (runController initialController events)
        (AuthEvent.profileSettled (Invocation.returns
          (some (t, Settlement.fulfilled (mkResult row JSVal.null)))))).state
        = { (runController initialController events).state with profile := row }) := by
  refine ⟨?_, ?_, ?_, ?_⟩
  · simp [stepController, afterRun, hmounted, onAuthStateChange_signed_out _ _ hsession]
  · simp [stepController, afterRun, hmounted, onAuthStateChange_signed_out _ _ hsession]
  · intro profileQuery
    by_cases h0 : (runController initialController events).inFlight = 0
    · simp [stepController, h0]
    · simp [stepController, h0, hmounted, (fetchProfile_frame profileQuery _).1]
  · intro t row ht hrow hflight
    have h0 : ¬ (runController initialController events).inFlight = 0 := by omega
    simp [stepController, h0, hmounted, fetchProfile_row t row _ ht hrow]

/-- Witness for the amended C27: the controller after a sign-in notification. -/
theorem controller_consistency_after_sign_out_witness :
    (stepController (runController initialController [AuthEvent.authChange sessionOfU1])
        (AuthEvent.authChange JSVal.null)).state.user = JSVal.null ∧
    (stepController (runController initialController [AuthEvent.authChange sessionOfU1])
        (AuthEvent.authChange JSVal.null)).state.profile = JSVal.null ∧
    (∀ profileQuery,
      (stepController (runController initialController [AuthEvent.authChange sessionOfU1])
        (AuthEvent.profileSettled profileQuery)).state.user
        = (runController initialController [AuthEvent.authChange sessionOfU1]).state.user) ∧
    (∀ (t : Nat) (row : JSVal), t < 3000 → truthy row = true →
      0 < (runController initialController [AuthEvent.authChange sessionOfU1]).inFlight →
      (stepController (runController initialController [AuthEvent.authChange sessionOfU1])
        (AuthEvent.profileSettled (Invocation.returns
          (some (t, Settlement.fulfilled (mkResult row JSVal.null)))))).state
        = { (runController initialController [AuthEvent.authChange sessionOfU1]).state with
            profile := row }) :=
  controller_consistency_after_sign_out [AuthEvent.authChange sessionOfU1] JSVal.null rfl rfl

end Recipe
